import Mathlib

/-
Verification of the process-group partitioning and subsystem lifecycle
orchestrator (src/src/lammps.cpp) against its natural-language specification.

The embedding models one process of the pool.  Everything the surrounding
runtime supplies (pool size, the pool rank of this process, which fopen calls
succeed, whether the accelerated capability is present, the platform
datatype sizes) is an explicit `Env` value.  The constructor
LAMMPS::LAMMPS(narg, arg, communicator) is modelled as the function
`LAMMPS.construct`, a sequential program over `Env` and the argument vector
that either completes with an `LmpState` or stops at the first fatal
error-reporter call, threading a `Trace` that records every observable side
effect (fopen attempts and successes per call site, warnings, informational
notices, banner prints, accelerator-context instantiation, subsystem
construction).
-/

namespace LAMMPS

/-- The subsystem slots owned by the orchestrator, named as the members of
the LAMMPS class in the source: update = time-integration driver,
neighbor = neighbor-search engine, comm = communication layer,
force = force-field registry, group = group registry,
output = output-writer registry, modify = modifier/callback registry,
domain = spatial-domain manager, atom = particle-data store,
timer = timing instrumentation. -/
inductive Subsys where
  | comm
  | neighbor
  | domain
  | atom
  | group
  | force
  | modify
  | output
  | update
  | timer
deriving DecidableEq

/-- Which concrete implementation a subsystem slot received at construction
(lammps.cpp lines 478-503): the reference class, the Cuda variant, or the
OMP variant (domain only, under the LMP_USER_OMP build flag). -/
inductive Variant where
  | ref
  | cudaV
  | ompV
deriving DecidableEq

/-- The error-reporter entry points called from lammps.cpp (class Error):
universe_all = collective fatal over the whole pool, universe_one = fatal
raised by the calling process alone, reported on the pool streams,
all = collective fatal over one world, one = fatal raised by the calling
process alone, reported on the world streams. -/
inductive ErrMethod where
  | universe_all
  | universe_one
  | all
  | one
deriving DecidableEq

/-- Escalation scopes of the fatal-error reporter, from the spec (section
4.4). -/
inductive Scope where
  | process
  | world
  | pool
deriving DecidableEq

/-- Modelled from the spec: the Error class (error.cpp) is not under src/.
Section 4.4 gives three escalation scopes; universe_all is the pool-wide
collective fatal ("every process in the pool must reach it"), all is the
world-collective fatal ("all processes in a world are expected to reach this
call"), and one / universe_one are the process-local fatal ("reported only
by the calling process"). -/
def ErrMethod.scope : ErrMethod → Scope
  | .universe_all => .pool
  | .universe_one => .process
  | .all => .world
  | .one => .process

/-- A fatal call into the error reporter: which entry point and the message
text. -/
structure ErrCall where
  method : ErrMethod
  msg : String
deriving DecidableEq

/-- An output destination as assigned by the constructor: the null stream
(FILE pointer NULL), the process standard output, the process standard
input, or a file opened by name. -/
inductive OutStream where
  | null
  | stdoutS
  | stdinS
  | file (name : String)
deriving DecidableEq

/-- The fopen call sites of the constructor:
uscreenFile = universe screen from the -screen flag (line 214),
ulogDefault = the default pool log "log.lammps" (line 220),
ulogFile = universe log from the -log flag (line 227),
wscreenFile = a per-world screen file (lines 280, 287, 295),
wlogFile = a per-world log file (lines 304, 311, 319),
inputFile = the input script (lines 252, 324). -/
inductive OpenSite where
  | uscreenFile
  | ulogDefault
  | ulogFile
  | wscreenFile
  | wlogFile
  | inputFile
deriving DecidableEq

/-- Whether an fopen call site belongs to the pool-scope streams. -/
def OpenSite.isPool : OpenSite → Bool
  | .uscreenFile => true
  | .ulogDefault => true
  | .ulogFile => true
  | _ => false

/-- Whether an fopen call site belongs to a world-scope screen or log
stream. -/
def OpenSite.isWorld : OpenSite → Bool
  | .wscreenFile => true
  | .wlogFile => true
  | _ => false

/-- One fopen call: the call site and the file name passed to fopen. -/
structure OpenEvent where
  site : OpenSite
  name : String
deriving DecidableEq

/-- The LAMMPS_SMALLBIG / LAMMPS_BIGBIG / LAMMPS_SMALLSMALL build flags
guarding the extra size checks at lammps.cpp lines 378-389; modeNone is a
build defining none of the three. -/
inductive SizeMode where
  | modeNone
  | smallbig
  | bigbig
  | smallsmall
deriving DecidableEq

/-- Everything the runtime environment supplies to one process of the pool:
pool size and the pool rank of this process (from the communicator), which
fopen(name, "w") and fopen(name, "r") calls succeed, whether the USER-CUDA
capability is installed (Cuda::cuda_exists), the LMP_USER_OMP build flag,
the platform sizeof values and MPI datatype sizes checked at lines 359-389,
and the size-mode build flag. -/
structure Env where
  nprocs : Nat
  me : Nat
  openW : String → Bool
  openR : String → Bool
  cudaExists : Bool
  userOmp : Bool
  sizeof_int : Nat
  sizeof_smallint : Nat
  sizeof_tagint : Nat
  sizeof_bigint : Nat
  mpi_size_tagint : Nat
  mpi_size_bigint : Nat
  sizeMode : SizeMode

/-- The command-line switch state built by the parse loop (lammps.cpp lines
77-180).  The C code stores the argv index of the value of each flag; since the
value at that index never changes, the model stores the value itself, with
none standing for flag == 0 (switch absent). -/
structure ParseState where
  inflag : Option String
  screenflag : Option String
  logflag : Option String
  partscreenflag : Option String
  partlogflag : Option String
  cudaflag : Option Bool
  citeflag : Bool
  helpflag : Bool
  suffix : Option String
  suffix_enable : Bool
  existflag : Bool
  worldDirs : List String
  reorders : List (String × String)
deriving DecidableEq

/-- The switch state before the parse loop runs (lammps.cpp lines 77-88 and
existflag = 0 set by the Universe constructor). -/
def ParseState.init : ParseState :=
  ⟨none, none, none, none, none, none, true, false, none, false, false, [], []⟩

/-- The C test arg[iarg][0] != '-' : whether the first character of a
token is a dash (an empty C string has first character NUL, not a dash). -/
def firstIsDash (s : String) : Bool :=
  match s.data with
  | [] => false
  | c :: _ => c = '-'

/-- The inner loop at lammps.cpp lines 97-100 (and 124): consume argument
tokens up to the next token whose first character is a dash.  Returns the
consumed tokens and the remaining suffix, together with a bound on the
suffix length used for termination. -/
def splitDirs (l : List String) :
    { p : List String × List String // p.2.length ≤ l.length } :=
  match l with
  | [] => ⟨([], []), by simp⟩
  | a :: rest =>
      if firstIsDash a then
        ⟨([], a :: rest), by simp⟩
      else
        let p := splitDirs rest
        ⟨(a :: p.1.1, p.1.2), by
          exact Nat.le_succ_of_le p.2⟩

/-- The fatal call for an unrecognized or malformed switch (lammps.cpp
line 95 and its copies). -/
def invalidArg : ErrCall := ⟨.universe_all, "Invalid command-line argument"⟩

/-- The command-line switches recognized by the parse loop, one per
strcmp chain of lammps.cpp lines 91-179, plus the unrecognized case. -/
inductive SwitchKind where
  | partitionK
  | inK
  | screenK
  | logK
  | varK
  | echoK
  | pscreenK
  | plogK
  | cudaK
  | suffixK
  | reorderK
  | nociteK
  | helpK
  | unknownK
deriving DecidableEq

/-- The strcmp dispatch of the parse loop: which switch (long or short
form) the token at iarg is. -/
def classify (a : String) : SwitchKind :=
  if a = "-partition" ∨ a = "-p" then .partitionK
  else if a = "-in" ∨ a = "-i" then .inK
  else if a = "-screen" ∨ a = "-sc" then .screenK
  else if a = "-log" ∨ a = "-l" then .logK
  else if a = "-var" ∨ a = "-v" then .varK
  else if a = "-echo" ∨ a = "-e" then .echoK
  else if a = "-pscreen" ∨ a = "-ps" then .pscreenK
  else if a = "-plog" ∨ a = "-pl" then .plogK
  else if a = "-cuda" ∨ a = "-c" then .cudaK
  else if a = "-suffix" ∨ a = "-sf" then .suffixK
  else if a = "-reorder" ∨ a = "-r" then .reorderK
  else if a = "-nocite" ∨ a = "-nc" then .nociteK
  else if a = "-help" ∨ a = "-h" then .helpK
  else .unknownK

/-- One iteration of the parse loop (lammps.cpp lines 90-180): dispatch on
the switch at the head of the token list, returning the updated switch
state and the remaining tokens, or the fatal error->universe_all call.
Every parse failure is an error->universe_all call. -/
def parseStep (a : String) (rest : List String) (st : ParseState) :
    Except ErrCall (List String × ParseState) :=
  match classify a with
  | .partitionK =>
    -- line 93: existflag is set before the argument-count check
    let st := { st with existflag := true }
    if rest.isEmpty then .error invalidArg
    else
      .ok ((splitDirs rest).1.2,
           { st with worldDirs := st.worldDirs ++ (splitDirs rest).1.1 })
  | .inK =>
    match rest with
    | [] => .error invalidArg
    | v :: rest2 => .ok (rest2, { st with inflag := some v })
  | .screenK =>
    match rest with
    | [] => .error invalidArg
    | v :: rest2 => .ok (rest2, { st with screenflag := some v })
  | .logK =>
    match rest with
    | [] => .error invalidArg
    | v :: rest2 => .ok (rest2, { st with logflag := some v })
  | .varK =>
    match rest with
    | _ :: _ :: rest2 =>
      -- lines 123-124: skip name, value, and any further non-dash tokens
      .ok ((splitDirs rest2).1.2, st)
    | _ => .error invalidArg
  | .echoK =>
    match rest with
    | [] => .error invalidArg
    | _ :: rest2 => .ok (rest2, st)
  | .pscreenK =>
    match rest with
    | [] => .error invalidArg
    | v :: rest2 => .ok (rest2, { st with partscreenflag := some v })
  | .plogK =>
    match rest with
    | [] => .error invalidArg
    | v :: rest2 => .ok (rest2, { st with partlogflag := some v })
  | .cudaK =>
    match rest with
    | [] => .error invalidArg
    | v :: rest2 =>
      if v = "on" then .ok (rest2, { st with cudaflag := some true })
      else if v = "off" then .ok (rest2, { st with cudaflag := some false })
      else .error invalidArg
  | .suffixK =>
    match rest with
    | [] => .error invalidArg
    | v :: rest2 => .ok (rest2, { st with suffix := some v, suffix_enable := true })
  | .reorderK =>
    match rest with
    | v1 :: v2 :: rest2 =>
      if st.existflag then
        .error ⟨.universe_all, "Cannot use -reorder after -partition"⟩
      else .ok (rest2, { st with reorders := st.reorders ++ [(v1, v2)] })
    | _ => .error invalidArg
  | .nociteK => .ok (rest, { st with citeflag := false })
  | .helpK => .ok (rest, { st with helpflag := true, citeflag := false })
  | .unknownK => .error invalidArg

/-- The parse loop of the constructor (lammps.cpp lines 89-180).  The fuel
argument makes the recursion structural; every step consumes at least one
token, so with fuel at least the token count (as `parseArgs` supplies) the
fuel-exhaustion branch is unreachable. -/
def parseLoop : Nat → List String → ParseState → Except ErrCall ParseState
  | _, [], st => .ok st
  | 0, _ :: _, _ => .error invalidArg  -- unreachable when fuel ≥ token count
  | fuel + 1, a :: rest, st =>
    match parseStep a rest st with
    | .error e => .error e
    | .ok (l2, st2) => parseLoop fuel l2 st2

/-- Run the parse loop on the switch tokens with sufficient fuel. -/
def parseArgs (l : List String) : Except ErrCall ParseState :=
  parseLoop l.length l ParseState.init

/-- Observable side effects of the constructor on this process, in order:
every fopen call (attempted and successful, tagged by call site), warnings
(error->universe_warn), informational notices (error->message), banner
lines written to the open streams of this process, whether a Cuda object was
instantiated (new Cuda), the subsystem objects constructed by create() with
their chosen variants, the package commands issued by post_create(), and
whether the help text was emitted. -/
structure Trace where
  openAttempts : List OpenEvent
  openedFiles : List OpenEvent
  warnings : List String
  notices : List String
  prints : List String
  cudaAttempted : Bool
  created : List (Subsys × Variant)
  packageCmds : List String
  helpPrinted : Bool
deriving DecidableEq

/-- The empty trace at constructor entry. -/
def Trace.init : Trace := ⟨[], [], [], [], [], false, [], [], false⟩

/-- Result of a constructor phase on this process: completion with a value,
or stop at the first fatal error-reporter call.  Both carry the trace
accumulated so far. -/
inductive Res (α : Type) where
  | ok (a : α) (tr : Trace)
  | fatal (e : ErrCall) (tr : Trace)
deriving DecidableEq

/-- The trace carried by a phase result. -/
def Res.trace : Res α → Trace
  | .ok _ tr => tr
  | .fatal _ tr => tr

/-- The error of a phase result, if any. -/
def Res.errOf : Res α → Option ErrCall
  | .ok _ _ => none
  | .fatal e _ => some e

/-- Whether a phase result is a completion. -/
def Res.isOk : Res α → Bool
  | .ok _ _ => true
  | .fatal _ _ => false

/-- One fopen(name, "w") call: records the attempt, consults the
environment for success, and records the successful open. -/
def tryOpenW (env : Env) (site : OpenSite) (name : String) (tr : Trace) :
    Option OutStream × Trace :=
  let tr := { tr with openAttempts := tr.openAttempts ++ [⟨site, name⟩] }
  if env.openW name then
    (some (.file name), { tr with openedFiles := tr.openedFiles ++ [⟨site, name⟩] })
  else (none, tr)

/-- One fopen(name, "r") call, for the input script. -/
def tryOpenR (env : Env) (site : OpenSite) (name : String) (tr : Trace) :
    Option OutStream × Trace :=
  let tr := { tr with openAttempts := tr.openAttempts ++ [⟨site, name⟩] }
  if env.openR name then
    (some (.file name), { tr with openedFiles := tr.openedFiles ++ [⟨site, name⟩] })
  else (none, tr)

/-- The recurring pattern of the stream-resolution code: one fopen(name,
"w") whose failure raises the given fatal error-reporter call. -/
def openOrFatal (env : Env) (site : OpenSite) (name : String) (e : ErrCall)
    (tr : Trace) : Res OutStream :=
  match tryOpenW env site name tr with
  | (some s, tr) => .ok s tr
  | (none, tr) => .fatal e tr

/-- The default-pool-log pattern (lines 220-222): one fopen(name, "w")
whose failure leaves a null stream and records only the given non-fatal
warning (error->universe_warn). -/
def openOrWarn (env : Env) (site : OpenSite) (name : String) (w : String)
    (tr : Trace) : Res OutStream :=
  match tryOpenW env site name tr with
  | (some s, tr) => .ok s tr
  | (none, tr) => .ok .null { tr with warnings := tr.warnings ++ [w] }

/-- One fopen(name, "r") whose failure raises the given fatal
error-reporter call. -/
def openROrFatal (env : Env) (site : OpenSite) (name : String) (e : ErrCall)
    (tr : Trace) : Res OutStream :=
  match tryOpenR env site name tr with
  | (some s, tr) => .ok s tr
  | (none, tr) => .fatal e tr

/-- Modelled from the spec: the Universe version/identity metadata
(universe.cpp / version.h, not under src/); the concrete text is
irrelevant to every claim. -/
def universeVersion : String := "model"

/-- An fprintf(stream, line) guarded by the stream being non-null, as in
the banner blocks (lammps.cpp lines 260-263 and 332-356). -/
def printTo (s : OutStream) (line : String) (tr : Trace) : Trace :=
  if s ≠ .null then { tr with prints := tr.prints ++ [line] } else tr

/-- The one-time identification line "LAMMPS (version)". -/
def versionLine : String := "LAMMPS (" ++ universeVersion ++ ")"

/-- Lines 209-217: resolve the universe screen on pool rank 0 — stdout by
default, suppressed by the reserved word none, otherwise the -screen file;
failure to open it is the fatal error->universe_one. -/
def uscreenRes (env : Env) (pst : ParseState) (tr : Trace) : Res OutStream :=
  match pst.screenflag with
  | none => .ok .stdoutS tr
  | some v =>
    if v = "none" then .ok .null tr
    else openOrFatal env .uscreenFile v ⟨.universe_one, "Cannot open universe screen file"⟩ tr

/-- Lines 218-230: resolve the universe log on pool rank 0 — the default
log.lammps (skipped entirely under -help; its open failure is only the
non-fatal error->universe_warn), suppressed by none, otherwise the -log
file whose open failure is the fatal error->universe_one. -/
def ulogRes (env : Env) (pst : ParseState) (tr : Trace) : Res OutStream :=
  match pst.logflag with
  | none =>
    if pst.helpflag = false then
      openOrWarn env .ulogDefault "log.lammps" "Cannot open log.lammps for writing" tr
    else .ok .null tr
  | some v =>
    if v = "none" then .ok .null tr
    else openOrFatal env .ulogFile v ⟨.universe_one, "Cannot open universe log file"⟩ tr

/-- Lines 206-237: resolve the universe (pool-scope) screen and log
streams.  Only pool rank 0 performs fopen calls; every other rank gets
stdout or null for the screen (depending on whether -screen was given) and
null for the log. -/
def setUniverseStreams (env : Env) (pst : ParseState) (tr : Trace) :
    Res (OutStream × OutStream) :=
  if env.me = 0 then
    match uscreenRes env pst tr with
    | .fatal e tr => .fatal e tr
    | .ok us tr =>
      match ulogRes env pst tr with
      | .fatal e tr => .fatal e tr
      | .ok ul tr => .ok (us, ul) tr
  else
    .ok ((if pst.screenflag = none then .stdoutS else .null), .null) tr

/-- Modelled from the spec: the communicator split (universe.cpp plus the
MPI_Comm_split at line 272, key 0) assigns contiguous pool-rank intervals
to worlds in directive order; for a rank r it yields the world
index and its local rank within that world. -/
def worldIndex : List Nat → Nat → Nat × Nat
  | [], r => (0, r)
  | s :: rest, r =>
    if r < s then (0, r)
    else
      let p := worldIndex rest (r - s)
      (p.1 + 1, p.2)

/-- The per-world and input-stream state produced by lines 239-357. -/
structure WorldCfg where
  screen : OutStream
  logfile : OutStream
  infile : OutStream
  iworld : Nat
  worldMe : Nat
  nworlds : Nat
  sameWorld : Bool
deriving DecidableEq

/-- Lines 275-297 and 299-321: resolve one per-world stream on the local
rank 0 of a world.  The three-level if/else of the source: the per-partition
base name (-pscreen / -plog) takes precedence, then the pool-level flag
(-screen / -log), then the default base name; every explicit or default
base name gets the world index appended, the reserved word none suppresses
the stream, and any open failure is the process-local fatal error->one
with the given message. -/
def wstreamRes (env : Env) (site : OpenSite) (pflag fl : Option String)
    (defBase : String) (iw : Nat) (emsg : String) (tr : Trace) : Res OutStream :=
  match pflag with
  | none =>
    match fl with
    | none => openOrFatal env site (defBase ++ "." ++ toString iw) ⟨.one, emsg⟩ tr
    | some v =>
      if v = "none" then .ok .null tr
      else openOrFatal env site (v ++ "." ++ toString iw) ⟨.one, emsg⟩ tr
  | some pv =>
    if pv = "none" then .ok .null tr
    else openOrFatal env site (pv ++ "." ++ toString iw) ⟨.one, emsg⟩ tr

/-- Lines 323-330: open the input script in a partitioned run (world local
rank 0); the -in value is guaranteed present by the check at line 193, so
the none branch is unreachable. -/
def winRes (env : Env) (inflag : Option String) (tr : Trace) : Res OutStream :=
  match inflag with
  | some f => openROrFatal env .inputFile f ⟨.one, "Cannot open input script " ++ f⟩ tr
  | none => .ok .null tr

/-- Lines 250-258: open the input script in an unpartitioned run on pool
rank 0 — stdin when -in was not given, otherwise the file, whose open
failure is the process-local fatal error->one. -/
def uinRes (env : Env) (inflag : Option String) (tr : Trace) : Res OutStream :=
  match inflag with
  | none => .ok .stdinS tr
  | some f => openROrFatal env .inputFile f ⟨.one, "Cannot open input script " ++ f⟩ tr

/-- The one-time partition-count banner line (lines 337-338). -/
def runLine (n : Nat) : String :=
  "Running on " ++ toString n ++ " partitions of processors"

/-- The one-time world-index banner line (line 350). -/
def partLine (iw : Nat) : String :=
  "Processor partition = " ++ toString iw

/-- Lines 239-357: set world screen, logfile, communicator and input file,
then emit the identification banners.  Unpartitioned (no -partition): the
world inherits the universe streams and only pool rank 0 opens the input.
Partitioned: only the local rank 0 of each world opens the streams and
input of that world, and any open failure — including for the default per-world
names screen.N and log.lammps.N — is the process-local fatal
error->one. -/
def setWorldStreams (env : Env) (pst : ParseState) (us ul : OutStream)
    (sizes : List Nat) (tr : Trace) : Res WorldCfg :=
  if pst.existflag = false then
    match (if env.me = 0 then uinRes env pst.inflag tr else .ok .null tr) with
    | .fatal e tr => .fatal e tr
    | .ok infile tr =>
      let tr := if env.me = 0 then printTo ul versionLine (printTo us versionLine tr) else tr
      .ok ⟨us, ul, infile, 0, env.me, 1, true⟩ tr
  else
    let iw := (worldIndex sizes env.me).1
    let wme := (worldIndex sizes env.me).2
    match (if wme = 0 then
        wstreamRes env .wscreenFile pst.partscreenflag pst.screenflag "screen" iw
          "Cannot open screen file" tr
      else .ok .null tr) with
    | .fatal e tr => .fatal e tr
    | .ok screen tr =>
      match (if wme = 0 then
          wstreamRes env .wlogFile pst.partlogflag pst.logflag "log.lammps" iw
            "Cannot open logfile" tr
        else .ok .null tr) with
      | .fatal e tr => .fatal e tr
      | .ok logfile tr =>
        match (if wme = 0 then winRes env pst.inflag tr else .ok .null tr) with
        | .fatal e tr => .fatal e tr
        | .ok infile tr =>
          let tr := if env.me = 0 then
              printTo ul (runLine sizes.length) (printTo ul versionLine
                (printTo us (runLine sizes.length) (printTo us versionLine tr)))
            else tr
          let tr := if wme = 0 then
              printTo logfile (partLine iw) (printTo logfile versionLine
                (printTo screen (partLine iw) (printTo screen versionLine tr)))
            else tr
          .ok ⟨screen, logfile, infile, iw, wme, sizes.length, false⟩ tr

/-- Lines 359-389: the datatype-size checks, in source order; the first
failing check raises its error->all call.  Returns the error of the first
failing check, or none when all checks pass. -/
def dtypeMismatch (env : Env) : Option ErrCall :=
  if env.sizeof_smallint ≠ env.sizeof_int then
    some ⟨.all, "Smallint setting in lmptype.h is invalid"⟩
  else if env.sizeof_tagint < env.sizeof_smallint then
    some ⟨.all, "Tagint setting in lmptype.h is invalid"⟩
  else if env.sizeof_bigint < env.sizeof_tagint then
    some ⟨.all, "Bigint setting in lmptype.h is invalid"⟩
  else if env.mpi_size_tagint ≠ env.sizeof_tagint then
    some ⟨.all, "MPI_LMP_TAGINT and tagint in lmptype.h are not compatible"⟩
  else if env.mpi_size_bigint ≠ env.sizeof_bigint then
    some ⟨.all, "MPI_LMP_BIGINT and bigint in lmptype.h are not compatible"⟩
  else
    match env.sizeMode with
    | .modeNone => none
    | .smallbig =>
      if env.sizeof_smallint ≠ 4 ∨ env.sizeof_tagint ≠ 4 ∨ env.sizeof_bigint ≠ 8 then
        some ⟨.all, "Small, tag, big integers are not sized correctly"⟩
      else none
    | .bigbig =>
      if env.sizeof_smallint ≠ 4 ∨ env.sizeof_tagint ≠ 8 ∨ env.sizeof_bigint ≠ 8 then
        some ⟨.all, "Small, tag, big integers are not sized correctly"⟩
      else none
    | .smallsmall =>
      if env.sizeof_smallint ≠ 4 ∨ env.sizeof_tagint ≠ 4 ∨ env.sizeof_bigint ≠ 4 then
        some ⟨.all, "Small, tag, big integers are not sized correctly"⟩
      else none

/-- The datatype-size checks as a single condition, for stating when a
mismatch exists (the disjunction of the conditions tested at lines
359-389). -/
def anyMismatch (env : Env) : Bool :=
  decide (env.sizeof_smallint ≠ env.sizeof_int) ||
  decide (env.sizeof_tagint < env.sizeof_smallint) ||
  decide (env.sizeof_bigint < env.sizeof_tagint) ||
  decide (env.mpi_size_tagint ≠ env.sizeof_tagint) ||
  decide (env.mpi_size_bigint ≠ env.sizeof_bigint) ||
  (match env.sizeMode with
   | .modeNone => false
   | .smallbig =>
     decide (env.sizeof_smallint ≠ 4 ∨ env.sizeof_tagint ≠ 4 ∨ env.sizeof_bigint ≠ 8)
   | .bigbig =>
     decide (env.sizeof_smallint ≠ 4 ∨ env.sizeof_tagint ≠ 8 ∨ env.sizeof_bigint ≠ 8)
   | .smallsmall =>
     decide (env.sizeof_smallint ≠ 4 ∨ env.sizeof_tagint ≠ 4 ∨ env.sizeof_bigint ≠ 4))

/-- Lines 391-406: select the accelerator variant.  cudaflag = some false
(forced-off): never instantiate Cuda.  cudaflag = some true (forced-on):
instantiate Cuda, fatal (error->all) when the capability is absent.
cudaflag = none (auto, the -1 default): instantiate Cuda, and silently
fall back to no accelerated context when the capability is absent.
Returns whether an accelerated context is active. -/
def cudaSetup (env : Env) (pst : ParseState) (tr : Trace) : Res Bool :=
  match pst.cudaflag with
  | some false => .ok false tr
  | some true =>
    let tr := { tr with cudaAttempted := true }
    if env.cudaExists then .ok true tr
    else .fatal ⟨.all, "Cannot use -cuda on without USER-CUDA installed"⟩ tr
  | none =>
    let tr := { tr with cudaAttempted := true }
    if env.cudaExists then .ok true tr else .ok false tr

/-- LAMMPS::create (lines 473-504): the subsystem objects in construction
order with the variant each slot receives — Cuda variants for comm,
neighbor, domain and modify when the accelerated context is active, the
OMP domain under LMP_USER_OMP otherwise, reference classes for the rest. -/
def create (cuda userOmp : Bool) : List (Subsys × Variant) :=
  [ (.comm, if cuda then .cudaV else .ref),
    (.neighbor, if cuda then .cudaV else .ref),
    (.domain, if cuda then .cudaV else if userOmp then .ompV else .ref),
    (.atom, .ref),
    (.group, .ref),
    (.force, .ref),
    (.modify, if cuda then .cudaV else .ref),
    (.output, .ref),
    (.update, .ref),
    (.timer, .ref) ]

/-- LAMMPS::post_create (lines 512-518): the package commands issued when
a suffix is set and enabled. -/
def post_create (sfx : Option String) (sfx_enable : Bool) : List String :=
  match sfx with
  | none => []
  | some s =>
    if sfx_enable then
      (if s = "gpu" then ["package gpu force/neigh 0 0 1"] else []) ++
      (if s = "omp" then ["package omp *"] else [])
    else []

/-- An event of LAMMPS::init: the cuda->accelerator configuration call, or
one subsystem init() call. -/
inductive InitEvent where
  | accConfig
  | sub (s : Subsys)
deriving DecidableEq

/-- LAMMPS::init (lines 525-541): the initialization sequence — the
cuda->accelerator call when the accelerated context is active, then the
subsystem init() calls in source order. -/
def init (cuda : Bool) : List InitEvent :=
  (if cuda then [.accConfig] else []) ++
  [ .sub .update, .sub .force, .sub .domain, .sub .atom,
    .sub .modify, .sub .neighbor, .sub .comm, .sub .output ]

/-- The subsystem init() calls of LAMMPS::init, without the accelerator
configuration call. -/
def initSubs (cuda : Bool) : List Subsys :=
  (init cuda).filterMap fun ev => match ev with
    | .accConfig => none
    | .sub s => some s

/-- LAMMPS::destroy (lines 548-566): the subsystem destructions, one per
delete statement in source order.  After the deletes the modify slot is
explicitly reset to NULL (line 564); the sequence below is the destruction
order itself. -/
def destroy : List Subsys :=
  [.update, .neighbor, .comm, .force, .group, .output, .modify, .domain, .atom, .timer]

/-- Decimal conversion of a directive token in the manner of atoi: consume
leading digits, stop at the first non-digit, yield 0 when there is no
leading digit. -/
def atoiAux : List Char → Nat → Nat
  | [], acc => acc
  | c :: rest, acc =>
    if c.isDigit then atoiAux rest (acc * 10 + (c.toNat - 48)) else acc

/-- Decimal value of a token, as atoi for nonnegative inputs. -/
def atoi (s : String) : Nat := atoiAux s.data 0

/-- Modelled from the spec: Universe::add_world (universe.cpp, not under
src/); each partition-size directive declares one world of the given
size. -/
def addWorldSizes (dirs : List String) : List Nat :=
  dirs.map fun d => atoi d

/-- The world-size list after line 184: the declared sizes when -partition
was given, otherwise the single implicit world spanning the whole pool
(Universe::add_world(NULL), modelled from the spec: "Partitioning with
zero directives yields exactly one world equal to the full pool"). -/
def effectiveSizes (env : Env) (pst : ParseState) : List Nat :=
  if pst.existflag then addWorldSizes pst.worldDirs else [env.nprocs]

/-- Modelled from the spec: Universe::consistent (universe.cpp, not under
src/) checks that the sum of world sizes equals the pool size. -/
def consistent (sizes : List Nat) (nprocs : Nat) : Bool :=
  sizes.sum == nprocs

/-- The trace updates after the accelerator selection: the informational
notice by the local rank 0 of each world when an accelerated context is active
(lines 408-410), the subsystem construction by create() (line 423), the
package commands of post_create() (line 424), and the help text emitted by
pool rank 0 before error->done (lines 428-431). -/
def finishTrace (env : Env) (pst : ParseState) (cu : Bool) (w : WorldCfg)
    (tr : Trace) : Trace :=
  let tr := if cu = true ∧ w.worldMe = 0 then
      { tr with notices := tr.notices ++ ["USER-CUDA mode is enabled"] }
    else tr
  let tr := { tr with created := create cu env.userOmp }
  let tr := { tr with packageCmds := post_create pst.suffix pst.suffix_enable }
  if pst.helpflag = true ∧ env.me = 0 ∧ w.screen ≠ .null then
    { tr with helpPrinted := true }
  else tr

/-- The state of the LAMMPS object when the constructor completes. -/
structure LmpState where
  uscreen : OutStream
  ulogfile : OutStream
  screen : OutStream
  logfile : OutStream
  infile : OutStream
  worldSizes : List Nat
  nworlds : Nat
  iworld : Nat
  worldMe : Nat
  sameWorld : Bool
  cuda : Bool
  citeme : Bool
  suffix : Option String
  helpExit : Bool
deriving DecidableEq

/-- LAMMPS::LAMMPS (lines 65-432) for one process: parse the switches,
default the universe to one world when -partition was absent, validate
partition consistency and flag combinations (all pool-wide
error->universe_all calls, before any stream is touched), resolve the
universe and world streams, run the datatype checks, select the
accelerator variant, emit the accelerator notice, construct the subsystem
graph, run the package commands, and print help when -help was given
(after which error->done terminates; modelled by the helpExit field). -/
def construct (env : Env) (argv : List String) : Res LmpState :=
  match parseArgs (argv.drop 1) with
  | .error e => .fatal e Trace.init
  | .ok pst =>
    if consistent (effectiveSizes env pst) env.nprocs = false then
      .fatal ⟨.universe_all, "Processor partitions are inconsistent"⟩ Trace.init
    else if pst.existflag = true ∧ pst.inflag = none then
      .fatal ⟨.universe_all, "Must use -in switch with multiple partitions"⟩ Trace.init
    else if pst.existflag = false ∧ pst.partscreenflag ≠ none then
      .fatal ⟨.universe_all, "Can only use -pscreen with multiple partitions"⟩ Trace.init
    else if pst.existflag = false ∧ pst.partlogflag ≠ none then
      .fatal ⟨.universe_all, "Can only use -plog with multiple partitions"⟩ Trace.init
    else
      match setUniverseStreams env pst Trace.init with
      | .fatal e tr => .fatal e tr
      | .ok (us, ul) tr =>
        match setWorldStreams env pst us ul (effectiveSizes env pst) tr with
        | .fatal e tr => .fatal e tr
        | .ok w tr =>
          match dtypeMismatch env with
          | some e => .fatal e tr
          | none =>
            match cudaSetup env pst tr with
            | .fatal e tr => .fatal e tr
            | .ok cu tr =>
              .ok ⟨us, ul, w.screen, w.logfile, w.infile, effectiveSizes env pst,
                   w.nworlds, w.iworld, w.worldMe, w.sameWorld, cu, pst.citeflag,
                   pst.suffix, pst.helpflag⟩
                 (finishTrace env pst cu w tr)

/-- The completed state of a constructor run, if any. -/
def Res.stateOf : Res LmpState → Option LmpState
  | .ok st _ => some st
  | .fatal _ _ => none

/-- The construction order written in the spec (section 4.5), rendered
through the spec-to-source subsystem naming: communication layer →
neighbor-search engine → spatial-domain manager → particle-data store →
group registry → force-field registry → modifier/callback registry →
output-writer registry → time-integration driver → timing
instrumentation. -/
def specConstructionOrder : List Subsys :=
  [.comm, .neighbor, .domain, .atom, .group, .force, .modify, .output, .update, .timer]

/-- The initialization order written in the spec (section 4.5):
time-integration driver → force-field registry → spatial-domain manager →
particle-data store → modifier/callback registry → neighbor-search engine
→ communication layer → output-writer registry. -/
def specInitOrder : List Subsys :=
  [.update, .force, .domain, .atom, .modify, .neighbor, .comm, .output]

/-- The destruction order written in the spec (section 4.5):
time-integration driver → neighbor-search engine → communication layer →
force-field registry → group registry → output-writer registry →
modifier/callback registry → spatial-domain manager → particle-data store
→ timing instrumentation. -/
def specDestructionOrder : List Subsys :=
  [.update, .neighbor, .comm, .force, .group, .output, .modify, .domain, .atom, .timer]

/-- Pool rank 1 of a pool of two, a plain command line, every fopen
succeeding, a well-sized platform: the environment refuting claim C2. -/
def envRank1 : Env :=
  ⟨2, 1, fun _ => true, fun _ => true, false, false, 4, 4, 4, 8, 4, 8, .smallbig⟩

/-- Pool rank 0 under partition sizes 1,1 where only the default per-world
log file log.lammps.0 fails to open: the environment refuting claim C5. -/
def envPartLog : Env :=
  ⟨2, 0, fun s => !(s == "log.lammps.0"), fun _ => true, false, false, 4, 4, 4, 8, 4, 8, .smallbig⟩

/-- Pool rank 1 under partition sizes 1,1 (hence local rank 0 of world 1),
with the accelerated capability present: the environment refuting claim
C7. -/
def envWorld1Cuda : Env :=
  ⟨2, 1, fun _ => true, fun _ => true, true, false, 4, 4, 4, 8, 4, 8, .smallbig⟩

/-- A platform whose tagint is smaller than its smallint: the environment
refuting the scope half of claim C9. -/
def envBadTagint : Env :=
  ⟨1, 0, fun _ => true, fun _ => true, false, false, 4, 4, 2, 8, 2, 8, .modeNone⟩

/-- The fatal call of the accelerator selector (line 399). -/
def cudaErr : ErrCall := ⟨.all, "Cannot use -cuda on without USER-CUDA installed"⟩

/-- The fatal calls of the datatype checks (lines 359-389), in source
order. -/
def dtypeErrs : List ErrCall :=
  [⟨.all, "Smallint setting in lmptype.h is invalid"⟩,
   ⟨.all, "Tagint setting in lmptype.h is invalid"⟩,
   ⟨.all, "Bigint setting in lmptype.h is invalid"⟩,
   ⟨.all, "MPI_LMP_TAGINT and tagint in lmptype.h are not compatible"⟩,
   ⟨.all, "MPI_LMP_BIGINT and bigint in lmptype.h are not compatible"⟩,
   ⟨.all, "Small, tag, big integers are not sized correctly"⟩]

/-- A singleton pool, rank 0, every open succeeding, a well-sized
platform: a plainest completing run, used by several witnesses. -/
def basicEnv : Env :=
  ⟨1, 0, fun _ => true, fun _ => true, false, false, 4, 4, 4, 8, 4, 8, .smallbig⟩

/-- A pool of two with a partition directive of total size three: an
inconsistent partition. -/
def badPartEnv : Env :=
  ⟨2, 0, fun _ => true, fun _ => true, false, false, 4, 4, 4, 8, 4, 8, .smallbig⟩

/-- An environment without the accelerated capability whose explicit
-screen file cannot be opened: a failing auto run. -/
def badScreenEnv : Env :=
  ⟨1, 0, fun _ => false, fun _ => true, false, false, 4, 4, 4, 8, 4, 8, .smallbig⟩

/-- An environment with the accelerated capability present. -/
def cudaEnv : Env :=
  ⟨1, 0, fun _ => true, fun _ => true, true, false, 4, 4, 4, 8, 4, 8, .smallbig⟩

/-- A singleton pool, rank 0, where writes succeed but reads fail: an
environment whose explicit input file cannot be opened. -/
def envNoInput : Env :=
  ⟨1, 0, fun _ => true, fun _ => false, false, false, 4, 4, 4, 8, 4, 8, .smallbig⟩

/-- Whether every fopen event in a list has a call site satisfying p. -/
def sitesOK (p : OpenSite → Bool) (l : List OpenEvent) : Bool :=
  l.all fun ev => p ev.site

end LAMMPS

namespace LAMMPS

theorem sitesOK_append (p : OpenSite → Bool) (l1 l2 : List OpenEvent) :
    sitesOK p (l1 ++ l2) = (sitesOK p l1 && sitesOK p l2) := by
  simp [sitesOK]

theorem sitesOK_mono {p q : OpenSite → Bool} (h : ∀ s, p s = true → q s = true) :
    ∀ l, sitesOK p l = true → sitesOK q l = true := by
  intro l hl
  rw [sitesOK, List.all_eq_true] at hl ⊢
  exact fun ev hev => h _ (hl ev hev)

theorem tryOpenW_eq (env : Env) (site : OpenSite) (name : String) (tr : Trace) :
    tryOpenW env site name tr =
      if env.openW name then
        (some (.file name),
         { tr with openAttempts := tr.openAttempts ++ [⟨site, name⟩],
                   openedFiles := tr.openedFiles ++ [⟨site, name⟩] })
      else (none, { tr with openAttempts := tr.openAttempts ++ [⟨site, name⟩] }) := by
  unfold tryOpenW
  split <;> rfl

theorem tryOpenR_eq (env : Env) (site : OpenSite) (name : String) (tr : Trace) :
    tryOpenR env site name tr =
      if env.openR name then
        (some (.file name),
         { tr with openAttempts := tr.openAttempts ++ [⟨site, name⟩],
                   openedFiles := tr.openedFiles ++ [⟨site, name⟩] })
      else (none, { tr with openAttempts := tr.openAttempts ++ [⟨site, name⟩] }) := by
  unfold tryOpenR
  split <;> rfl

@[simp] theorem printTo_openAttempts (s : OutStream) (line : String) (tr : Trace) :
    (printTo s line tr).openAttempts = tr.openAttempts := by
  unfold printTo; split <;> rfl

@[simp] theorem printTo_openedFiles (s : OutStream) (line : String) (tr : Trace) :
    (printTo s line tr).openedFiles = tr.openedFiles := by
  unfold printTo; split <;> rfl

@[simp] theorem printTo_warnings (s : OutStream) (line : String) (tr : Trace) :
    (printTo s line tr).warnings = tr.warnings := by
  unfold printTo; split <;> rfl

@[simp] theorem printTo_notices (s : OutStream) (line : String) (tr : Trace) :
    (printTo s line tr).notices = tr.notices := by
  unfold printTo; split <;> rfl

@[simp] theorem printTo_cudaAttempted (s : OutStream) (line : String) (tr : Trace) :
    (printTo s line tr).cudaAttempted = tr.cudaAttempted := by
  unfold printTo; split <;> rfl

@[simp] theorem printTo_created (s : OutStream) (line : String) (tr : Trace) :
    (printTo s line tr).created = tr.created := by
  unfold printTo; split <;> rfl

@[simp] theorem finishTrace_openAttempts (env : Env) (pst : ParseState) (cu : Bool)
    (w : WorldCfg) (tr : Trace) :
    (finishTrace env pst cu w tr).openAttempts = tr.openAttempts := by
  unfold finishTrace; repeat' split
  all_goals rfl

@[simp] theorem finishTrace_openedFiles (env : Env) (pst : ParseState) (cu : Bool)
    (w : WorldCfg) (tr : Trace) :
    (finishTrace env pst cu w tr).openedFiles = tr.openedFiles := by
  unfold finishTrace; repeat' split
  all_goals rfl

@[simp] theorem finishTrace_warnings (env : Env) (pst : ParseState) (cu : Bool)
    (w : WorldCfg) (tr : Trace) :
    (finishTrace env pst cu w tr).warnings = tr.warnings := by
  unfold finishTrace; repeat' split
  all_goals rfl

@[simp] theorem finishTrace_cudaAttempted (env : Env) (pst : ParseState) (cu : Bool)
    (w : WorldCfg) (tr : Trace) :
    (finishTrace env pst cu w tr).cudaAttempted = tr.cudaAttempted := by
  unfold finishTrace; repeat' split
  all_goals rfl

theorem finishTrace_notices (env : Env) (pst : ParseState) (cu : Bool)
    (w : WorldCfg) (tr : Trace) :
    (finishTrace env pst cu w tr).notices =
      (if cu = true ∧ w.worldMe = 0 then tr.notices ++ ["USER-CUDA mode is enabled"]
       else tr.notices) := by
  unfold finishTrace; repeat' split
  all_goals simp_all

theorem finishTrace_created (env : Env) (pst : ParseState) (cu : Bool)
    (w : WorldCfg) (tr : Trace) :
    (finishTrace env pst cu w tr).created = create cu env.userOmp := by
  unfold finishTrace; repeat' split
  all_goals rfl

theorem openOrFatal_eq (env : Env) (site : OpenSite) (name : String) (e : ErrCall)
    (tr : Trace) :
    openOrFatal env site name e tr =
      if env.openW name then
        .ok (.file name)
          { tr with openAttempts := tr.openAttempts ++ [⟨site, name⟩],
                    openedFiles := tr.openedFiles ++ [⟨site, name⟩] }
      else .fatal e { tr with openAttempts := tr.openAttempts ++ [⟨site, name⟩] } := by
  by_cases h : env.openW name <;> simp [openOrFatal, tryOpenW_eq, h]

theorem openOrWarn_eq (env : Env) (site : OpenSite) (name : String) (w : String)
    (tr : Trace) :
    openOrWarn env site name w tr =
      if env.openW name then
        .ok (.file name)
          { tr with openAttempts := tr.openAttempts ++ [⟨site, name⟩],
                    openedFiles := tr.openedFiles ++ [⟨site, name⟩] }
      else
        .ok .null
          { tr with openAttempts := tr.openAttempts ++ [⟨site, name⟩],
                    warnings := tr.warnings ++ [w] } := by
  by_cases h : env.openW name <;> simp [openOrWarn, tryOpenW_eq, h]

theorem openROrFatal_eq (env : Env) (site : OpenSite) (name : String) (e : ErrCall)
    (tr : Trace) :
    openROrFatal env site name e tr =
      if env.openR name then
        .ok (.file name)
          { tr with openAttempts := tr.openAttempts ++ [⟨site, name⟩],
                    openedFiles := tr.openedFiles ++ [⟨site, name⟩] }
      else .fatal e { tr with openAttempts := tr.openAttempts ++ [⟨site, name⟩] } := by
  by_cases h : env.openR name <;> simp [openROrFatal, tryOpenR_eq, h]

/-- Fopen-site containment for the universe screen resolver: it adds only
uscreenFile events. -/
theorem uscreenRes_sites (env : Env) (pst : ParseState) (tr : Trace) (p : OpenSite → Bool)
    (hp1 : p .uscreenFile = true)
    (ha : sitesOK p tr.openAttempts = true) (ho : sitesOK p tr.openedFiles = true) :
    sitesOK p (uscreenRes env pst tr).trace.openAttempts = true ∧
    sitesOK p (uscreenRes env pst tr).trace.openedFiles = true := by
  unfold uscreenRes
  simp only [openOrFatal_eq, openOrWarn_eq, openROrFatal_eq]
  repeat' split
  all_goals simp_all [Res.trace, sitesOK_append, sitesOK]

/-- The universe screen resolver leaves the non-stream trace records
unchanged. -/
theorem uscreenRes_core (env : Env) (pst : ParseState) (tr : Trace) :
    (uscreenRes env pst tr).trace.cudaAttempted = tr.cudaAttempted ∧
    (uscreenRes env pst tr).trace.created = tr.created ∧
    (uscreenRes env pst tr).trace.notices = tr.notices ∧
    (uscreenRes env pst tr).trace.prints = tr.prints ∧
    (uscreenRes env pst tr).trace.warnings = tr.warnings := by
  unfold uscreenRes
  simp only [openOrFatal_eq, openOrWarn_eq, openROrFatal_eq]
  repeat' split
  all_goals simp_all [Res.trace]

/-- Every fatal of the universe screen resolver is error->universe_one
with the universe-screen message. -/
theorem uscreenRes_err (env : Env) (pst : ParseState) (tr tr2 : Trace) (e : ErrCall)
    (h : uscreenRes env pst tr = .fatal e tr2) :
    e = ⟨.universe_one, "Cannot open universe screen file"⟩ := by
  unfold uscreenRes at h
  simp only [openOrFatal_eq, openOrWarn_eq, openROrFatal_eq] at h
  repeat' split at h
  all_goals simp_all

/-- Fopen-site containment for the universe log resolver: it adds only
ulogDefault and ulogFile events. -/
theorem ulogRes_sites (env : Env) (pst : ParseState) (tr : Trace) (p : OpenSite → Bool)
    (hp2 : p .ulogDefault = true) (hp3 : p .ulogFile = true)
    (ha : sitesOK p tr.openAttempts = true) (ho : sitesOK p tr.openedFiles = true) :
    sitesOK p (ulogRes env pst tr).trace.openAttempts = true ∧
    sitesOK p (ulogRes env pst tr).trace.openedFiles = true := by
  unfold ulogRes
  simp only [openOrFatal_eq, openOrWarn_eq, openROrFatal_eq]
  repeat' split
  all_goals simp_all [Res.trace, sitesOK_append, sitesOK]

/-- With -help given and no -log switch, the universe log resolver is the
identity on the trace — the default-log branch is skipped entirely and the
log destination keeps the initial null. -/
theorem ulogRes_help (env : Env) (pst : ParseState) (tr : Trace)
    (hlog : pst.logflag = none) (hhelp : pst.helpflag = true) :
    ulogRes env pst tr = .ok .null tr := by
  simp [ulogRes, hlog, hhelp]

/-- Without -help and with no -log switch, the universe log resolver
attempts the default log.lammps exactly once; failure leaves a null log
and a warning, never a fatal. -/
theorem ulogRes_default (env : Env) (pst : ParseState) (tr : Trace)
    (hlog : pst.logflag = none) (hhelp : pst.helpflag = false) :
    ulogRes env pst tr =
      (if env.openW "log.lammps" then
        .ok (.file "log.lammps")
          { tr with openAttempts := tr.openAttempts ++ [⟨.ulogDefault, "log.lammps"⟩],
                    openedFiles := tr.openedFiles ++ [⟨.ulogDefault, "log.lammps"⟩] }
       else
        .ok .null
          { tr with openAttempts := tr.openAttempts ++ [⟨.ulogDefault, "log.lammps"⟩],
                    warnings := tr.warnings ++ ["Cannot open log.lammps for writing"] }) := by
  unfold ulogRes
  rw [hlog, hhelp]
  simp only [openOrWarn_eq]
  split <;> simp_all

/-- The universe log resolver leaves the non-stream, non-warning trace
records unchanged. -/
theorem ulogRes_core (env : Env) (pst : ParseState) (tr : Trace) :
    (ulogRes env pst tr).trace.cudaAttempted = tr.cudaAttempted ∧
    (ulogRes env pst tr).trace.created = tr.created ∧
    (ulogRes env pst tr).trace.notices = tr.notices ∧
    (ulogRes env pst tr).trace.prints = tr.prints := by
  unfold ulogRes
  simp only [openOrFatal_eq, openOrWarn_eq, openROrFatal_eq]
  repeat' split
  all_goals simp_all [Res.trace]

/-- Every fatal of the universe log resolver is error->universe_one with
the universe-log message. -/
theorem ulogRes_err (env : Env) (pst : ParseState) (tr tr2 : Trace) (e : ErrCall)
    (h : ulogRes env pst tr = .fatal e tr2) :
    e = ⟨.universe_one, "Cannot open universe log file"⟩ := by
  unfold ulogRes at h
  simp only [openOrFatal_eq, openOrWarn_eq, openROrFatal_eq] at h
  repeat' split at h
  all_goals simp_all

/-- Fopen-site containment for the per-world stream resolver: it adds only
events at its own site. -/
theorem wstreamRes_sites (env : Env) (site : OpenSite) (pflag fl : Option String)
    (defBase : String) (iw : Nat) (emsg : String) (tr : Trace) (p : OpenSite → Bool)
    (hp : p site = true)
    (ha : sitesOK p tr.openAttempts = true) (ho : sitesOK p tr.openedFiles = true) :
    sitesOK p (wstreamRes env site pflag fl defBase iw emsg tr).trace.openAttempts = true ∧
    sitesOK p (wstreamRes env site pflag fl defBase iw emsg tr).trace.openedFiles = true := by
  unfold wstreamRes
  simp only [openOrFatal_eq, openOrWarn_eq, openROrFatal_eq]
  repeat' split
  all_goals simp_all [Res.trace, sitesOK_append, sitesOK]

/-- The per-world stream resolver leaves the non-stream trace records
unchanged. -/
theorem wstreamRes_core (env : Env) (site : OpenSite) (pflag fl : Option String)
    (defBase : String) (iw : Nat) (emsg : String) (tr : Trace) :
    (wstreamRes env site pflag fl defBase iw emsg tr).trace.cudaAttempted = tr.cudaAttempted ∧
    (wstreamRes env site pflag fl defBase iw emsg tr).trace.created = tr.created ∧
    (wstreamRes env site pflag fl defBase iw emsg tr).trace.notices = tr.notices ∧
    (wstreamRes env site pflag fl defBase iw emsg tr).trace.prints = tr.prints ∧
    (wstreamRes env site pflag fl defBase iw emsg tr).trace.warnings = tr.warnings := by
  unfold wstreamRes
  simp only [openOrFatal_eq, openOrWarn_eq, openROrFatal_eq]
  repeat' split
  all_goals simp_all [Res.trace]

/-- Every fatal of the per-world stream resolver is error->one with its
message. -/
theorem wstreamRes_err (env : Env) (site : OpenSite) (pflag fl : Option String)
    (defBase : String) (iw : Nat) (emsg : String) (tr tr2 : Trace) (e : ErrCall)
    (h : wstreamRes env site pflag fl defBase iw emsg tr = .fatal e tr2) :
    e = ⟨.one, emsg⟩ := by
  unfold wstreamRes at h
  simp only [openOrFatal_eq, openOrWarn_eq, openROrFatal_eq] at h
  repeat' split at h
  all_goals simp_all

/-- Fopen-site containment for the partitioned input opener: it adds only
inputFile events. -/
theorem winRes_sites (env : Env) (inflag : Option String) (tr : Trace) (p : OpenSite → Bool)
    (hp : p .inputFile = true)
    (ha : sitesOK p tr.openAttempts = true) (ho : sitesOK p tr.openedFiles = true) :
    sitesOK p (winRes env inflag tr).trace.openAttempts = true ∧
    sitesOK p (winRes env inflag tr).trace.openedFiles = true := by
  unfold winRes
  simp only [openOrFatal_eq, openOrWarn_eq, openROrFatal_eq]
  repeat' split
  all_goals simp_all [Res.trace, sitesOK_append, sitesOK]

/-- The partitioned input opener leaves the non-stream trace records
unchanged. -/
theorem winRes_core (env : Env) (inflag : Option String) (tr : Trace) :
    (winRes env inflag tr).trace.cudaAttempted = tr.cudaAttempted ∧
    (winRes env inflag tr).trace.created = tr.created ∧
    (winRes env inflag tr).trace.notices = tr.notices ∧
    (winRes env inflag tr).trace.prints = tr.prints ∧
    (winRes env inflag tr).trace.warnings = tr.warnings := by
  unfold winRes
  simp only [openOrFatal_eq, openOrWarn_eq, openROrFatal_eq]
  repeat' split
  all_goals simp_all [Res.trace]

/-- Every fatal of the partitioned input opener is error->one naming the
input script. -/
theorem winRes_err (env : Env) (inflag : Option String) (tr tr2 : Trace) (e : ErrCall)
    (h : winRes env inflag tr = .fatal e tr2) :
    ∃ f, inflag = some f ∧ e = ⟨.one, "Cannot open input script " ++ f⟩ := by
  unfold winRes at h
  simp only [openOrFatal_eq, openOrWarn_eq, openROrFatal_eq] at h
  repeat' split at h
  all_goals simp_all

/-- Fopen-site containment for the unpartitioned input opener. -/
theorem uinRes_sites (env : Env) (inflag : Option String) (tr : Trace) (p : OpenSite → Bool)
    (hp : p .inputFile = true)
    (ha : sitesOK p tr.openAttempts = true) (ho : sitesOK p tr.openedFiles = true) :
    sitesOK p (uinRes env inflag tr).trace.openAttempts = true ∧
    sitesOK p (uinRes env inflag tr).trace.openedFiles = true := by
  unfold uinRes
  simp only [openOrFatal_eq, openOrWarn_eq, openROrFatal_eq]
  repeat' split
  all_goals simp_all [Res.trace, sitesOK_append, sitesOK]

/-- The unpartitioned input opener leaves the non-stream trace records
unchanged. -/
theorem uinRes_core (env : Env) (inflag : Option String) (tr : Trace) :
    (uinRes env inflag tr).trace.cudaAttempted = tr.cudaAttempted ∧
    (uinRes env inflag tr).trace.created = tr.created ∧
    (uinRes env inflag tr).trace.notices = tr.notices ∧
    (uinRes env inflag tr).trace.prints = tr.prints ∧
    (uinRes env inflag tr).trace.warnings = tr.warnings := by
  unfold uinRes
  simp only [openOrFatal_eq, openOrWarn_eq, openROrFatal_eq]
  repeat' split
  all_goals simp_all [Res.trace]

/-- Every fatal of the unpartitioned input opener is error->one naming the
input script, and only an explicitly requested input can fail. -/
theorem uinRes_err (env : Env) (inflag : Option String) (tr tr2 : Trace) (e : ErrCall)
    (h : uinRes env inflag tr = .fatal e tr2) :
    ∃ f, inflag = some f ∧ e = ⟨.one, "Cannot open input script " ++ f⟩ := by
  unfold uinRes at h
  simp only [openOrFatal_eq, openOrWarn_eq, openROrFatal_eq] at h
  repeat' split at h
  all_goals simp_all

/-- Lines 233-237: every process other than pool rank 0 resolves the
universe streams without any fopen call — stdout for the screen when no
-screen switch was given, null otherwise, and a null log. -/
theorem SUS_me_pos (env : Env) (pst : ParseState) (tr : Trace) (h : ¬ env.me = 0) :
    setUniverseStreams env pst tr =
      .ok ((if pst.screenflag = none then .stdoutS else .null), .null) tr := by
  unfold setUniverseStreams
  rw [if_neg h]

/-- The universe-stream phase adds only pool-scope fopen events. -/
theorem SUS_sites (env : Env) (pst : ParseState) (tr : Trace) (p : OpenSite → Bool)
    (hp1 : p .uscreenFile = true) (hp2 : p .ulogDefault = true) (hp3 : p .ulogFile = true)
    (ha : sitesOK p tr.openAttempts = true) (ho : sitesOK p tr.openedFiles = true) :
    sitesOK p (setUniverseStreams env pst tr).trace.openAttempts = true ∧
    sitesOK p (setUniverseStreams env pst tr).trace.openedFiles = true := by
  unfold setUniverseStreams
  split
  · split
    · rename_i e tr1 heq
      have h1 := uscreenRes_sites env pst tr p hp1 ha ho
      rw [heq] at h1
      exact h1
    · rename_i us tr1 heq
      have h1 := uscreenRes_sites env pst tr p hp1 ha ho
      rw [heq] at h1
      split
      · rename_i e tr2 heq2
        have h2 := ulogRes_sites env pst tr1 p hp2 hp3 h1.1 h1.2
        rw [heq2] at h2
        exact h2
      · rename_i ul tr2 heq2
        have h2 := ulogRes_sites env pst tr1 p hp2 hp3 h1.1 h1.2
        rw [heq2] at h2
        exact h2
  · exact ⟨ha, ho⟩

/-- The universe-stream phase leaves the accelerator, subsystem, notice
and print records of the trace unchanged. -/
theorem SUS_core (env : Env) (pst : ParseState) (tr : Trace) :
    (setUniverseStreams env pst tr).trace.cudaAttempted = tr.cudaAttempted ∧
    (setUniverseStreams env pst tr).trace.created = tr.created ∧
    (setUniverseStreams env pst tr).trace.notices = tr.notices ∧
    (setUniverseStreams env pst tr).trace.prints = tr.prints := by
  unfold setUniverseStreams
  split
  · split
    · rename_i e tr1 heq
      have h1 := uscreenRes_core env pst tr
      rw [heq] at h1
      exact ⟨h1.1, h1.2.1, h1.2.2.1, h1.2.2.2.1⟩
    · rename_i us tr1 heq
      have h1 := uscreenRes_core env pst tr
      rw [heq] at h1
      have h2 := ulogRes_core env pst tr1
      split
      · rename_i e tr2 heq2
        rw [heq2] at h2
        simp only [Res.trace] at h1 h2 ⊢
        exact ⟨h2.1.trans h1.1, (h2.2.1).trans h1.2.1, (h2.2.2.1).trans h1.2.2.1,
               (h2.2.2.2).trans h1.2.2.2.1⟩
      · rename_i ul tr2 heq2
        rw [heq2] at h2
        simp only [Res.trace] at h1 h2 ⊢
        exact ⟨h2.1.trans h1.1, (h2.2.1).trans h1.2.1, (h2.2.2.1).trans h1.2.2.1,
               (h2.2.2.2).trans h1.2.2.2.1⟩
  · exact ⟨rfl, rfl, rfl, rfl⟩

/-- Every fatal of the universe-stream phase is an error->universe_one
call. -/
theorem SUS_err (env : Env) (pst : ParseState) (tr tr2 : Trace) (e : ErrCall)
    (h : setUniverseStreams env pst tr = .fatal e tr2) :
    e.method = .universe_one := by
  unfold setUniverseStreams at h
  split at h
  · split at h
    · rename_i e1 tr1 heq
      have he := uscreenRes_err env pst tr tr1 e1 heq
      injection h with h1 h2
      rw [← h1, he]
    · rename_i us tr1 heq
      split at h
      · rename_i e2 tr3 heq2
        have he := ulogRes_err env pst tr1 tr3 e2 heq2
        injection h with h1 h2
        rw [← h1, he]
      · cases h
  · cases h

/-- Lines 244-263: in an unpartitioned run the world streams are exactly
the universe streams, the world communicator is the pool communicator, and
the world rank is the pool rank. -/
theorem SWS_unpart_ok (env : Env) (pst : ParseState) (us ul : OutStream)
    (sizes : List Nat) (tr tr2 : Trace) (w : WorldCfg)
    (hex : pst.existflag = false)
    (h : setWorldStreams env pst us ul sizes tr = .ok w tr2) :
    w.screen = us ∧ w.logfile = ul ∧ w.iworld = 0 ∧ w.worldMe = env.me ∧
    w.nworlds = 1 ∧ w.sameWorld = true := by
  unfold setWorldStreams at h
  rw [if_pos hex] at h
  split at h
  · cases h
  · injection h with h1 h2
    subst h1
    exact ⟨rfl, rfl, rfl, rfl, rfl, rfl⟩

/-- Lines 244-263 on a non-rank-0 process of an unpartitioned run: no
fopen happens, the input stays null, and the trace is untouched. -/
theorem SWS_unpart_me_pos (env : Env) (pst : ParseState) (us ul : OutStream)
    (sizes : List Nat) (tr : Trace)
    (hex : pst.existflag = false) (hme : ¬ env.me = 0) :
    setWorldStreams env pst us ul sizes tr = .ok ⟨us, ul, .null, 0, env.me, 1, true⟩ tr := by
  unfold setWorldStreams
  rw [if_pos hex]
  simp [if_neg hme]

/-- Lines 275-330 on a process that is not the local rank 0 of its world in
a partitioned run: all three world streams are null and no fopen happens;
only the pool-rank-0 banner may touch the trace, and it only appends
prints. -/
theorem SWS_part_wme_pos (env : Env) (pst : ParseState) (us ul : OutStream)
    (sizes : List Nat) (tr : Trace)
    (hex : ¬ pst.existflag = false) (hw : ¬ (worldIndex sizes env.me).2 = 0) :
    ∃ tr2,
      setWorldStreams env pst us ul sizes tr =
        .ok ⟨.null, .null, .null, (worldIndex sizes env.me).1,
             (worldIndex sizes env.me).2, sizes.length, false⟩ tr2 ∧
      tr2.openAttempts = tr.openAttempts ∧ tr2.openedFiles = tr.openedFiles ∧
      tr2.warnings = tr.warnings ∧ tr2.notices = tr.notices ∧
      tr2.cudaAttempted = tr.cudaAttempted ∧ tr2.created = tr.created := by
  unfold setWorldStreams
  rw [if_neg hex]
  simp only [if_neg hw]
  by_cases hme : env.me = 0
  · simp only [if_pos hme]
    refine ⟨_, rfl, ?_, ?_, ?_, ?_, ?_, ?_⟩ <;> simp
  · simp only [if_neg hme]
    refine ⟨_, rfl, ?_, ?_, ?_, ?_, ?_, ?_⟩ <;> simp

/-- The partitioned branch of lines 265-357: the produced world index,
local rank, world count and communicator-sharing flag. -/
theorem SWS_part_ok (env : Env) (pst : ParseState) (us ul : OutStream)
    (sizes : List Nat) (tr tr2 : Trace) (w : WorldCfg)
    (hex : ¬ pst.existflag = false)
    (h : setWorldStreams env pst us ul sizes tr = .ok w tr2) :
    w.iworld = (worldIndex sizes env.me).1 ∧ w.worldMe = (worldIndex sizes env.me).2 ∧
    w.nworlds = sizes.length ∧ w.sameWorld = false := by
  by_cases hw : (worldIndex sizes env.me).2 = 0
  · unfold setWorldStreams at h
    rw [if_neg hex] at h
    simp only [if_pos hw] at h
    split at h
    · cases h
    · split at h
      · cases h
      · split at h
        · cases h
        · injection h with h1 h2
          subst h1
          exact ⟨rfl, rfl, rfl, rfl⟩
  · obtain ⟨tr3, heqr, hrest⟩ := SWS_part_wme_pos env pst us ul sizes tr hex hw
    rw [heqr] at h
    injection h with h1 h2
    subst h1
    exact ⟨rfl, rfl, rfl, rfl⟩

/-- The world-stream phase adds only world-scope and input fopen
events. -/
theorem SWS_sites (env : Env) (pst : ParseState) (us ul : OutStream)
    (sizes : List Nat) (tr : Trace) (p : OpenSite → Bool)
    (hpw : p .wscreenFile = true) (hpl : p .wlogFile = true) (hpi : p .inputFile = true)
    (ha : sitesOK p tr.openAttempts = true) (ho : sitesOK p tr.openedFiles = true) :
    sitesOK p (setWorldStreams env pst us ul sizes tr).trace.openAttempts = true ∧
    sitesOK p (setWorldStreams env pst us ul sizes tr).trace.openedFiles = true := by
  unfold setWorldStreams
  split
  · by_cases hme : env.me = 0
    · simp only [if_pos hme]
      split
      · rename_i e t heq
        have h1 := uinRes_sites env pst.inflag tr p hpi ha ho
        rw [heq] at h1
        exact h1
      · rename_i infl t heq
        have h1 := uinRes_sites env pst.inflag tr p hpi ha ho
        rw [heq] at h1
        simp_all [Res.trace]
    · simp only [if_neg hme]
      simp_all [Res.trace]
  · by_cases hw : (worldIndex sizes env.me).2 = 0
    · simp only [if_pos hw]
      split
      · rename_i e t heq
        have h1 := wstreamRes_sites env .wscreenFile pst.partscreenflag pst.screenflag
          "screen" (worldIndex sizes env.me).1 "Cannot open screen file" tr p hpw ha ho
        rw [heq] at h1
        exact h1
      · rename_i screen t1 heq
        have h1 := wstreamRes_sites env .wscreenFile pst.partscreenflag pst.screenflag
          "screen" (worldIndex sizes env.me).1 "Cannot open screen file" tr p hpw ha ho
        rw [heq] at h1
        split
        · rename_i e t heq2
          have h2 := wstreamRes_sites env .wlogFile pst.partlogflag pst.logflag
            "log.lammps" (worldIndex sizes env.me).1 "Cannot open logfile" t1 p hpl h1.1 h1.2
          rw [heq2] at h2
          exact h2
        · rename_i logfile t2 heq2
          have h2 := wstreamRes_sites env .wlogFile pst.partlogflag pst.logflag
            "log.lammps" (worldIndex sizes env.me).1 "Cannot open logfile" t1 p hpl h1.1 h1.2
          rw [heq2] at h2
          split
          · rename_i e t heq3
            have h3 := winRes_sites env pst.inflag t2 p hpi h2.1 h2.2
            rw [heq3] at h3
            exact h3
          · rename_i infl t3 heq3
            have h3 := winRes_sites env pst.inflag t2 p hpi h2.1 h2.2
            rw [heq3] at h3
            simp only [Res.trace] at h3 ⊢
            repeat' split
            all_goals simp_all
    · simp only [if_neg hw]
      simp only [Res.trace]
      repeat' split
      all_goals simp_all

/-- The world-stream phase leaves the accelerator, subsystem, notice and
warning records of the trace unchanged. -/
theorem SWS_core (env : Env) (pst : ParseState) (us ul : OutStream)
    (sizes : List Nat) (tr : Trace) :
    (setWorldStreams env pst us ul sizes tr).trace.cudaAttempted = tr.cudaAttempted ∧
    (setWorldStreams env pst us ul sizes tr).trace.created = tr.created ∧
    (setWorldStreams env pst us ul sizes tr).trace.notices = tr.notices ∧
    (setWorldStreams env pst us ul sizes tr).trace.warnings = tr.warnings := by
  unfold setWorldStreams
  split
  · by_cases hme : env.me = 0
    · simp only [if_pos hme]
      split
      · rename_i e t heq
        have h1 := uinRes_core env pst.inflag tr
        rw [heq] at h1
        exact ⟨h1.1, h1.2.1, h1.2.2.1, h1.2.2.2.2⟩
      · rename_i infl t heq
        have h1 := uinRes_core env pst.inflag tr
        rw [heq] at h1
        simp_all [Res.trace]
    · simp only [if_neg hme]
      simp_all [Res.trace]
  · by_cases hw : (worldIndex sizes env.me).2 = 0
    · simp only [if_pos hw]
      split
      · rename_i e t heq
        have h1 := wstreamRes_core env .wscreenFile pst.partscreenflag pst.screenflag
          "screen" (worldIndex sizes env.me).1 "Cannot open screen file" tr
        rw [heq] at h1
        exact ⟨h1.1, h1.2.1, h1.2.2.1, h1.2.2.2.2⟩
      · rename_i screen t1 heq
        have h1 := wstreamRes_core env .wscreenFile pst.partscreenflag pst.screenflag
          "screen" (worldIndex sizes env.me).1 "Cannot open screen file" tr
        rw [heq] at h1
        simp only [Res.trace] at h1
        split
        · rename_i e t heq2
          have h2 := wstreamRes_core env .wlogFile pst.partlogflag pst.logflag
            "log.lammps" (worldIndex sizes env.me).1 "Cannot open logfile" t1
          rw [heq2] at h2
          simp only [Res.trace] at h2 ⊢
          exact ⟨h2.1.trans h1.1, h2.2.1.trans h1.2.1, h2.2.2.1.trans h1.2.2.1,
                 h2.2.2.2.2.trans h1.2.2.2.2⟩
        · rename_i logfile t2 heq2
          have h2 := wstreamRes_core env .wlogFile pst.partlogflag pst.logflag
            "log.lammps" (worldIndex sizes env.me).1 "Cannot open logfile" t1
          rw [heq2] at h2
          simp only [Res.trace] at h2
          split
          · rename_i e t heq3
            have h3 := winRes_core env pst.inflag t2
            rw [heq3] at h3
            simp only [Res.trace] at h3 ⊢
            exact ⟨(h3.1.trans h2.1).trans h1.1, (h3.2.1.trans h2.2.1).trans h1.2.1,
                   (h3.2.2.1.trans h2.2.2.1).trans h1.2.2.1,
                   (h3.2.2.2.2.trans h2.2.2.2.2).trans h1.2.2.2.2⟩
          · rename_i infl t3 heq3
            have h3 := winRes_core env pst.inflag t2
            rw [heq3] at h3
            simp only [Res.trace] at h3 ⊢
            repeat' split
            all_goals simp_all
    · simp only [if_neg hw]
      simp only [Res.trace]
      repeat' split
      all_goals simp_all

/-- Every fatal of the world-stream phase is an error->one call. -/
theorem SWS_err (env : Env) (pst : ParseState) (us ul : OutStream)
    (sizes : List Nat) (tr tr2 : Trace) (e : ErrCall)
    (h : setWorldStreams env pst us ul sizes tr = .fatal e tr2) :
    e.method = .one := by
  by_cases hex : pst.existflag = false
  · unfold setWorldStreams at h
    rw [if_pos hex] at h
    by_cases hme : env.me = 0
    · simp only [if_pos hme] at h
      split at h
      · rename_i e1 t1 heq
        obtain ⟨f, hf, he⟩ := uinRes_err env pst.inflag tr t1 e1 heq
        injection h with h1 h2
        rw [← h1, he]
      · cases h
    · simp only [if_neg hme] at h
      simp at h
  · by_cases hw : (worldIndex sizes env.me).2 = 0
    · unfold setWorldStreams at h
      rw [if_neg hex] at h
      simp only [if_pos hw] at h
      split at h
      · rename_i e1 t1 heq
        have he := wstreamRes_err env .wscreenFile pst.partscreenflag pst.screenflag
          "screen" (worldIndex sizes env.me).1 "Cannot open screen file" tr t1 e1 heq
        injection h with h1 h2
        rw [← h1, he]
      · rename_i screen t1 heq
        split at h
        · rename_i e1 t2 heq2
          have he := wstreamRes_err env .wlogFile pst.partlogflag pst.logflag
            "log.lammps" (worldIndex sizes env.me).1 "Cannot open logfile" t1 t2 e1 heq2
          injection h with h1 h2
          rw [← h1, he]
        · rename_i logfile t2 heq2
          split at h
          · rename_i e1 t3 heq3
            obtain ⟨f, hf, he⟩ := winRes_err env pst.inflag t2 t3 e1 heq3
            injection h with h1 h2
            rw [← h1, he]
          · cases h
    · obtain ⟨tr3, heqr, hrest⟩ := SWS_part_wme_pos env pst us ul sizes tr hex hw
      rw [heqr] at h
      cases h

/-- Line 394: under forced-off the accelerator selector instantiates
nothing and leaves the trace untouched. -/
theorem cudaSetup_off (env : Env) (pst : ParseState) (tr : Trace)
    (hc : pst.cudaflag = some false) :
    cudaSetup env pst tr = .ok false tr := by
  unfold cudaSetup
  rw [hc]

/-- Lines 396-399: under forced-on with the capability absent the
accelerator selector raises the fatal error->all call, after instantiating
the dummy accelerator context. -/
theorem cudaSetup_on_missing (env : Env) (pst : ParseState) (tr : Trace)
    (hc : pst.cudaflag = some true) (hx : env.cudaExists = false) :
    cudaSetup env pst tr = .fatal cudaErr { tr with cudaAttempted := true } := by
  unfold cudaSetup
  rw [hc]
  simp [hx, cudaErr]

/-- Lines 400-406: under auto the accelerator selector never fails; the
accelerated context is active exactly when the capability exists. -/
theorem cudaSetup_auto (env : Env) (pst : ParseState) (tr : Trace)
    (hc : pst.cudaflag = none) :
    cudaSetup env pst tr = .ok env.cudaExists { tr with cudaAttempted := true } := by
  unfold cudaSetup
  rw [hc]
  cases hx : env.cudaExists <;> simp [hx]

/-- The only fatal of the accelerator selector is the forced-on-missing
case. -/
theorem cudaSetup_err (env : Env) (pst : ParseState) (tr tr2 : Trace) (e : ErrCall)
    (h : cudaSetup env pst tr = .fatal e tr2) :
    e = cudaErr ∧ pst.cudaflag = some true ∧ env.cudaExists = false := by
  unfold cudaSetup at h
  repeat' split at h
  all_goals simp_all [cudaErr]

/-- A completing accelerator selection only ever flips the
accelerator-instantiation marker of the trace. -/
theorem cudaSetup_ok_trace (env : Env) (pst : ParseState) (tr tr2 : Trace) (cu : Bool)
    (h : cudaSetup env pst tr = .ok cu tr2) :
    tr2.openAttempts = tr.openAttempts ∧ tr2.openedFiles = tr.openedFiles ∧
    tr2.warnings = tr.warnings ∧ tr2.notices = tr.notices ∧
    tr2.created = tr.created := by
  unfold cudaSetup at h
  repeat' split at h
  all_goals first
    | (obtain ⟨h1, h2⟩ := Res.ok.inj h; subst h2; simp)
    | (exact absurd h (by simp))

/-- Under forced-off a completing accelerator selection reports no active
context and never instantiates one. -/
theorem cudaSetup_off_ok (env : Env) (pst : ParseState) (tr tr2 : Trace) (cu : Bool)
    (hc : pst.cudaflag = some false)
    (h : cudaSetup env pst tr = .ok cu tr2) :
    cu = false ∧ tr2.cudaAttempted = tr.cudaAttempted := by
  rw [cudaSetup_off env pst tr hc] at h
  injection h with h1 h2
  subst h1
  rw [h2]
  exact ⟨rfl, rfl⟩

/-- The first failing datatype check determines the reported error; no
check fails exactly when no mismatch exists. -/
theorem dtypeMismatch_none_iff (env : Env) :
    dtypeMismatch env = none ↔ anyMismatch env = false := by
  unfold dtypeMismatch anyMismatch
  repeat' split
  all_goals simp_all

/-- Every datatype-check fatal is one of the six error->all calls of lines
359-389. -/
theorem dtypeMismatch_mem (env : Env) (e : ErrCall)
    (h : dtypeMismatch env = some e) :
    e ∈ dtypeErrs ∧ e.method = .all := by
  unfold dtypeMismatch at h
  repeat' split at h
  all_goals first
    | (injection h with h1; subst h1; exact ⟨by decide, rfl⟩)
    | (cases h)

/-- One parse step never turns the citation flag back on: if helpflag
implies a cleared citeflag on entry, the same holds on exit; -help itself
clears it (line 177). -/
theorem parseStep_cite (a : String) (rest : List String) (st : ParseState)
    (l2 : List String) (st2 : ParseState)
    (h : parseStep a rest st = .ok (l2, st2))
    (hin : st.helpflag = true → st.citeflag = false) :
    st2.helpflag = true → st2.citeflag = false := by
  unfold parseStep at h
  repeat' split at h
  all_goals try (cases h)
  all_goals try (exact fun hh => hin hh)
  all_goals exact fun hh => rfl

/-- The parse loop never turns the citation flag back on once -nocite or
-help has cleared it: if helpflag implies a cleared citeflag on entry, the
same holds on exit.  In particular -help forces the citation collaborator
off. -/
theorem parseLoop_cite : ∀ (fuel : Nat) (l : List String) (st pst : ParseState),
    parseLoop fuel l st = .ok pst →
    (st.helpflag = true → st.citeflag = false) →
    (pst.helpflag = true → pst.citeflag = false) := by
  intro fuel
  induction fuel with
  | zero =>
    intro l st pst h hin
    cases l with
    | nil =>
      rw [parseLoop] at h
      injection h with h1
      subst h1
      exact hin
    | cons a rest =>
      rw [parseLoop] at h
      cases h
  | succ n ih =>
    intro l st pst h hin
    cases l with
    | nil =>
      rw [parseLoop] at h
      injection h with h1
      subst h1
      exact hin
    | cons a rest =>
      rw [parseLoop] at h
      split at h
      · cases h
      · rename_i l2 st2 heq
        exact ih _ _ _ h (parseStep_cite _ _ _ _ _ heq hin)

/-- Decomposition of a completing constructor run into its phases. -/
theorem construct_ok_elim (env : Env) (argv : List String) (st : LmpState) (tr : Trace)
    (h : construct env argv = .ok st tr) :
    ∃ pst us ul tr1 w tr2 cu tr3,
      parseArgs (argv.drop 1) = .ok pst ∧
      consistent (effectiveSizes env pst) env.nprocs = true ∧
      ¬(pst.existflag = true ∧ pst.inflag = none) ∧
      setUniverseStreams env pst Trace.init = .ok (us, ul) tr1 ∧
      setWorldStreams env pst us ul (effectiveSizes env pst) tr1 = .ok w tr2 ∧
      dtypeMismatch env = none ∧
      cudaSetup env pst tr2 = .ok cu tr3 ∧
      st = ⟨us, ul, w.screen, w.logfile, w.infile, effectiveSizes env pst, w.nworlds,
            w.iworld, w.worldMe, w.sameWorld, cu, pst.citeflag, pst.suffix, pst.helpflag⟩ ∧
      tr = finishTrace env pst cu w tr3 := by
  unfold construct at h
  split at h
  · cases h
  · rename_i pst hparse
    by_cases hc1 : consistent (effectiveSizes env pst) env.nprocs = false
    · rw [if_pos hc1] at h
      cases h
    · rw [if_neg hc1] at h
      by_cases hc2 : pst.existflag = true ∧ pst.inflag = none
      · rw [if_pos hc2] at h
        cases h
      · rw [if_neg hc2] at h
        by_cases hc3 : pst.existflag = false ∧ pst.partscreenflag ≠ none
        · rw [if_pos hc3] at h
          cases h
        · rw [if_neg hc3] at h
          by_cases hc4 : pst.existflag = false ∧ pst.partlogflag ≠ none
          · rw [if_pos hc4] at h
            cases h
          · rw [if_neg hc4] at h
            split at h
            · cases h
            · rename_i us ul tr1 hsus
              split at h
              · cases h
              · rename_i w tr2 hsws
                split at h
                · cases h
                · rename_i hdt
                  split at h
                  · cases h
                  · rename_i cu tr3 hcuda
                    obtain ⟨h1, h2⟩ := Res.ok.inj h
                    exact ⟨pst, us, ul, tr1, w, tr2, cu, tr3, hparse,
                           eq_true_of_ne_false hc1, hc2, hsus, hsws, hdt, hcuda,
                           h1.symm, h2.symm⟩

/-- Every parse-step failure is an error->universe_all call. -/
theorem parseStep_err (a : String) (rest : List String) (st : ParseState) (e : ErrCall)
    (h : parseStep a rest st = .error e) : e.method = .universe_all := by
  unfold parseStep at h
  repeat' split at h
  all_goals cases h
  all_goals rfl

/-- Every parse-loop failure is an error->universe_all call. -/
theorem parseLoop_err : ∀ (fuel : Nat) (l : List String) (st : ParseState) (e : ErrCall),
    parseLoop fuel l st = .error e → e.method = .universe_all := by
  intro fuel
  induction fuel with
  | zero =>
    intro l st e h
    cases l with
    | nil => rw [parseLoop] at h; cases h
    | cons a rest =>
      rw [parseLoop] at h
      cases h
      rfl
  | succ n ih =>
    intro l st e h
    cases l with
    | nil => rw [parseLoop] at h; cases h
    | cons a rest =>
      rw [parseLoop] at h
      split at h
      · rename_i e1 heq
        cases h
        exact parseStep_err _ _ _ _ heq
      · rename_i l2 st2 heq
        exact ih _ _ _ h

/-- Decomposition of a failing constructor run: the fatal comes from the
parse loop, from one of the four post-parse validation checks (all
pool-wide, before any stream is touched), from universe or world stream
resolution, from the datatype checks, or from the accelerator
selector. -/
theorem construct_err_elim (env : Env) (argv : List String) (e : ErrCall) (tr : Trace)
    (h : construct env argv = .fatal e tr) :
    (parseArgs (argv.drop 1) = .error e ∧ tr = Trace.init ∧ e.method = .universe_all) ∨
    (∃ pst, parseArgs (argv.drop 1) = .ok pst ∧ tr = Trace.init ∧
        e.method = .universe_all) ∨
    (∃ pst, parseArgs (argv.drop 1) = .ok pst ∧
        setUniverseStreams env pst Trace.init = .fatal e tr) ∨
    (∃ pst us ul tr1, parseArgs (argv.drop 1) = .ok pst ∧
        setUniverseStreams env pst Trace.init = .ok (us, ul) tr1 ∧
        setWorldStreams env pst us ul (effectiveSizes env pst) tr1 = .fatal e tr) ∨
    (∃ pst us ul tr1 w, parseArgs (argv.drop 1) = .ok pst ∧
        setUniverseStreams env pst Trace.init = .ok (us, ul) tr1 ∧
        setWorldStreams env pst us ul (effectiveSizes env pst) tr1 = .ok w tr ∧
        dtypeMismatch env = some e) ∨
    (∃ pst us ul tr1 w tr2, parseArgs (argv.drop 1) = .ok pst ∧
        setUniverseStreams env pst Trace.init = .ok (us, ul) tr1 ∧
        setWorldStreams env pst us ul (effectiveSizes env pst) tr1 = .ok w tr2 ∧
        dtypeMismatch env = none ∧
        cudaSetup env pst tr2 = .fatal e tr) := by
  unfold construct at h
  split at h
  · rename_i e1 hparse
    obtain ⟨h1, h2⟩ := Res.fatal.inj h
    subst h1
    subst h2
    exact Or.inl ⟨hparse, rfl, parseLoop_err _ _ _ _ hparse⟩
  · rename_i pst hparse
    by_cases hc1 : consistent (effectiveSizes env pst) env.nprocs = false
    · rw [if_pos hc1] at h
      obtain ⟨h1, h2⟩ := Res.fatal.inj h
      exact Or.inr (Or.inl ⟨pst, hparse, h2.symm, by rw [← h1]⟩)
    · rw [if_neg hc1] at h
      by_cases hc2 : pst.existflag = true ∧ pst.inflag = none
      · rw [if_pos hc2] at h
        obtain ⟨h1, h2⟩ := Res.fatal.inj h
        exact Or.inr (Or.inl ⟨pst, hparse, h2.symm, by rw [← h1]⟩)
      · rw [if_neg hc2] at h
        by_cases hc3 : pst.existflag = false ∧ pst.partscreenflag ≠ none
        · rw [if_pos hc3] at h
          obtain ⟨h1, h2⟩ := Res.fatal.inj h
          exact Or.inr (Or.inl ⟨pst, hparse, h2.symm, by rw [← h1]⟩)
        · rw [if_neg hc3] at h
          by_cases hc4 : pst.existflag = false ∧ pst.partlogflag ≠ none
          · rw [if_pos hc4] at h
            obtain ⟨h1, h2⟩ := Res.fatal.inj h
            exact Or.inr (Or.inl ⟨pst, hparse, h2.symm, by rw [← h1]⟩)
          · rw [if_neg hc4] at h
            split at h
            · rename_i e1 tr1 heq
              obtain ⟨h1, h2⟩ := Res.fatal.inj h
              subst h1
              subst h2
              exact Or.inr (Or.inr (Or.inl ⟨pst, hparse, heq⟩))
            · rename_i us ul tr1 hsus
              split at h
              · rename_i e1 tr2 heq
                obtain ⟨h1, h2⟩ := Res.fatal.inj h
                subst h1
                subst h2
                exact Or.inr (Or.inr (Or.inr (Or.inl
                  ⟨pst, us, ul, tr1, hparse, hsus, heq⟩)))
              · rename_i w tr2 hsws
                split at h
                · rename_i e1 hdt
                  obtain ⟨h1, h2⟩ := Res.fatal.inj h
                  subst h1
                  subst h2
                  exact Or.inr (Or.inr (Or.inr (Or.inr (Or.inl
                    ⟨pst, us, ul, tr1, w, hparse, hsus, hsws, hdt⟩))))
                · rename_i hdt
                  split at h
                  · rename_i e1 tr3 heq
                    obtain ⟨h1, h2⟩ := Res.fatal.inj h
                    subst h1
                    subst h2
                    exact Or.inr (Or.inr (Or.inr (Or.inr (Or.inr
                      ⟨pst, us, ul, tr1, w, tr2, hparse, hsus, hsws, hdt, heq⟩))))
                  · cases h

/-- Claim C3: the destroy phase destroys the subsystem objects in exactly
the documented single-pass order — time-integration driver,
neighbor-search engine, communication layer, force-field registry, group
registry, output-writer registry, modifier/callback registry,
spatial-domain manager, particle-data store, timing instrumentation — and
this order is not the reverse of the construction order, whichever
variants were selected. -/
theorem C3_destroy_order :
    destroy = specDestructionOrder ∧
    ∀ c u : Bool, destroy ≠ ((create c u).map Prod.fst).reverse := by
  refine ⟨rfl, ?_⟩
  intro c u
  cases c <;> cases u <;> decide

/-- Claim C4: the init phase initializes the subsystem objects in exactly
the documented order — time-integration driver, force-field registry,
spatial-domain manager, particle-data store, modifier/callback registry,
neighbor-search engine, communication layer, output-writer registry — and
this order differs from the construction order, whichever variants were
selected. -/
theorem C4_init_order :
    (∀ c : Bool, initSubs c = specInitOrder) ∧
    ∀ c u : Bool, specInitOrder ≠ (create c u).map Prod.fst := by
  constructor
  · intro c; cases c <;> decide
  · intro c u; cases c <;> cases u <;> decide

/-- Claim C2 counterexample: on pool rank 1 (a rank that is neither pool
rank 0 nor, in this unpartitioned run, a separate world-local rank 0
distinct from it — its world rank equals its pool rank 1) with a plain
command line, stream resolution ends with the pool-scope screen
destination equal to the standard output, not null, and the world-scope
screen inherits the same non-null destination; so not every non-rank-0
process ends with null destinations for both streams at both scopes. -/
theorem C2_nonroot_stdout_cex :
    ((construct envRank1 ["lmp"]).stateOf.map fun st => st.uscreen) = some OutStream.stdoutS ∧
    ((construct envRank1 ["lmp"]).stateOf.map fun st => st.screen) = some OutStream.stdoutS ∧
    ((construct envRank1 ["lmp"]).stateOf.map fun st => st.worldMe) = some 1 ∧
    envRank1.me = 1 ∧ OutStream.stdoutS ≠ OutStream.null := by
  refine ⟨?_, ?_, ?_, ?_, ?_⟩ <;> decide

/-- Claim C5 counterexample: partition sizes 1,1 with -in given and no log
switch; on the local rank 0 of world 0 the default per-world log file
log.lammps.0 fails to open, and the constructor stops with the fatal
process-local error->one call "Cannot open logfile" — no warning is
recorded and execution does not proceed, contradicting the claim that a
default-log open failure is a non-fatal warning. -/
theorem C5_partition_default_log_fatal_cex :
    parseArgs (["lmp", "-p", "1", "1", "-in", "in.x"].drop 1) =
      .ok ⟨some "in.x", none, none, none, none, none, true, false, none, false, true,
           ["1", "1"], []⟩ ∧
    (construct envPartLog ["lmp", "-p", "1", "1", "-in", "in.x"]).errOf =
      some ⟨.one, "Cannot open logfile"⟩ ∧
    (construct envPartLog ["lmp", "-p", "1", "1", "-in", "in.x"]).trace.warnings = [] := by
  refine ⟨rfl, ?_, ?_⟩ <;> decide

/-- Claim C7 counterexample: partition sizes 1,1 with the accelerated
capability present and the directive left at auto; the process with pool
rank 1 is the local rank 0 of world 1, and it emits the informational
accelerated-mode notice even though its pool rank is not 0 — so the
notice is not emitted exactly by pool rank 0. -/
theorem C7_nonroot_notice_cex :
    (construct envWorld1Cuda ["lmp", "-p", "1", "1", "-in", "in.x"]).isOk = true ∧
    ((construct envWorld1Cuda ["lmp", "-p", "1", "1", "-in", "in.x"]).stateOf.map
      fun st => st.worldMe) = some 0 ∧
    (construct envWorld1Cuda ["lmp", "-p", "1", "1", "-in", "in.x"]).trace.notices =
      ["USER-CUDA mode is enabled"] ∧
    envWorld1Cuda.me = 1 := by
  refine ⟨?_, ?_, ?_, ?_⟩ <;> decide

/-- Claim C9 counterexample: on a platform whose tagint is smaller than
its smallint, the datatype check stops startup with error->all — the
world-collective fatal — not with the pool-wide error->universe_all; the
check does run before any subsystem object or accelerator context is
constructed. -/
theorem C9_world_scope_cex :
    (construct envBadTagint ["lmp"]).errOf =
      some ⟨.all, "Tagint setting in lmptype.h is invalid"⟩ ∧
    ErrMethod.scope .all = Scope.world ∧
    Scope.world ≠ Scope.pool ∧
    (construct envBadTagint ["lmp"]).trace.created = [] ∧
    (construct envBadTagint ["lmp"]).trace.cudaAttempted = false := by
  refine ⟨?_, ?_, ?_, ?_, ?_⟩ <;> decide

/-- Claim C1: for every sequence of partition-size directives (including
the empty sequence, which yields a single implicit world), a completing
startup has world sizes summing exactly to the pool size, and a declared
partition whose sizes do not sum to the pool size stops startup with the
pool-wide fatal error->universe_all call, before any stream is touched —
construction never proceeds with an inconsistent partition. -/
theorem C1_partition_consistency :
    ∀ (env : Env) (argv : List String),
      (∀ st tr, construct env argv = .ok st tr → st.worldSizes.sum = env.nprocs) ∧
      (∀ pst, parseArgs (argv.drop 1) = .ok pst →
        (effectiveSizes env pst).sum ≠ env.nprocs →
        construct env argv =
          .fatal ⟨.universe_all, "Processor partitions are inconsistent"⟩ Trace.init) := by
  intro env argv
  constructor
  · intro st tr h
    obtain ⟨pst, us, ul, tr1, w, tr2, cu, tr3, hparse, hcons, hchk, hsus, hsws, hdt,
            hcuda, hst, htr⟩ := construct_ok_elim env argv st tr h
    subst hst
    simpa [consistent] using hcons
  · intro pst hparse hsum
    have hc : consistent (effectiveSizes env pst) env.nprocs = false := by
      simpa [consistent] using hsum
    unfold construct
    simp only [hparse]
    rw [if_pos hc]

/-- Witness for claim C1: a plain run completes with the single implicit
world of the full pool size, and a pool of two given partition size 3
stops with the pool-wide inconsistency fatal. -/
theorem C1_partition_consistency_witness :
    (∃ st tr, construct basicEnv ["lmp"] = .ok st tr ∧ st.worldSizes.sum = basicEnv.nprocs) ∧
    construct badPartEnv ["lmp", "-p", "3"] =
      .fatal ⟨.universe_all, "Processor partitions are inconsistent"⟩ Trace.init := by
  constructor
  · cases hc : construct basicEnv ["lmp"] with
    | fatal e tr =>
      have hok : (construct basicEnv ["lmp"]).isOk = true := by decide
      rw [hc] at hok
      cases hok
    | ok st tr =>
      exact ⟨st, tr, rfl, (C1_partition_consistency basicEnv ["lmp"]).1 st tr hc⟩
  · exact (C1_partition_consistency badPartEnv ["lmp", "-p", "3"]).2
      ⟨none, none, none, none, none, none, true, false, none, false, true, ["3"], []⟩
      rfl (by decide)

/-- Claim C8: a command line that declares a partition but supplies no
input source stops startup with a pool-wide fatal error->universe_all
call, before any screen or log stream is even attempted. -/
theorem C8_partition_requires_in :
    ∀ (env : Env) (argv : List String) (pst : ParseState),
      parseArgs (argv.drop 1) = .ok pst →
      pst.existflag = true →
      pst.inflag = none →
      ∃ e tr, construct env argv = .fatal e tr ∧ e.method = .universe_all ∧
        tr.openAttempts = [] ∧ tr.openedFiles = [] := by
  intro env argv pst hparse hex hin
  unfold construct
  simp only [hparse]
  by_cases hc1 : consistent (effectiveSizes env pst) env.nprocs = false
  · rw [if_pos hc1]
    exact ⟨_, _, rfl, rfl, rfl, rfl⟩
  · rw [if_neg hc1, if_pos ⟨hex, hin⟩]
    exact ⟨_, _, rfl, rfl, rfl, rfl⟩

/-- Witness for claim C8: partition sizes 1,1 on a pool of two without
-in. -/
theorem C8_partition_requires_in_witness :
    ∃ e tr,
      construct badPartEnv ["lmp", "-p", "1", "1"] = .fatal e tr ∧
      e.method = .universe_all ∧ tr.openAttempts = [] ∧ tr.openedFiles = [] := by
  exact C8_partition_requires_in badPartEnv ["lmp", "-p", "1", "1"]
    ⟨none, none, none, none, none, none, true, false, none, false, true, ["1", "1"], []⟩
    rfl rfl rfl

/-- Every datatype-check fatal is the world-collective error->all. -/
theorem dtypeErrs_method : ∀ e ∈ dtypeErrs, e.method = .all := by decide

/-- Claim C7, amended: during a completing startup the informational
accelerated-mode notice is emitted exactly when an accelerated context is
active and this process is the local rank 0 of its world — so in a
partitioned run every world leader emits it, not only pool rank 0. -/
theorem C7_notice_amended :
    ∀ (env : Env) (argv : List String) (st : LmpState) (tr : Trace),
      construct env argv = .ok st tr →
      tr.notices = (if st.cuda = true ∧ st.worldMe = 0
                    then ["USER-CUDA mode is enabled"] else []) := by
  intro env argv st tr h
  obtain ⟨pst, us, ul, tr1, w, tr2, cu, tr3, hparse, hcons, hchk, hsus, hsws, hdt,
          hcuda, hst, htr⟩ := construct_ok_elim env argv st tr h
  subst hst
  subst htr
  have h1 := SUS_core env pst Trace.init
  rw [hsus] at h1
  simp only [Res.trace] at h1
  have h2 := SWS_core env pst us ul (effectiveSizes env pst) tr1
  rw [hsws] at h2
  simp only [Res.trace] at h2
  have h3 := cudaSetup_ok_trace env pst tr2 tr3 cu hcuda
  rw [finishTrace_notices]
  rw [h3.2.2.2.1, h2.2.2.1, h1.2.2.1]
  rfl

/-- Witness for the amended claim C7: in the partitioned cuda-auto run of
the counterexample environment, world 1 is led by pool rank 1 and the
notice list of that process is exactly the one accelerated-mode line. -/
theorem C7_notice_amended_witness :
    ∃ st tr, construct envWorld1Cuda ["lmp", "-p", "1", "1", "-in", "in.x"] = .ok st tr ∧
      tr.notices = (if st.cuda = true ∧ st.worldMe = 0
                    then ["USER-CUDA mode is enabled"] else []) := by
  cases hc : construct envWorld1Cuda ["lmp", "-p", "1", "1", "-in", "in.x"] with
  | fatal e tr =>
    have hok : (construct envWorld1Cuda ["lmp", "-p", "1", "1", "-in", "in.x"]).isOk = true := by
      decide
    rw [hc] at hok
    cases hok
  | ok st tr =>
    exact ⟨st, tr, rfl,
      C7_notice_amended envWorld1Cuda ["lmp", "-p", "1", "1", "-in", "in.x"] st tr hc⟩

/-- Claim C9, amended: a datatype-size mismatch never lets startup
complete; the check stops it with one of the world-collective error->all
calls — not the pool-wide error->universe_all — raised identically on
every process, and it is detected before the accelerator context or any
subsystem object is constructed. -/
theorem C9_dtype_checks_amended :
    ∀ (env : Env) (argv : List String),
      (anyMismatch env = true → ∀ st tr, construct env argv ≠ .ok st tr) ∧
      (∀ e tr, construct env argv = .fatal e tr → e ∈ dtypeErrs →
        e.method = .all ∧ ErrMethod.scope e.method = Scope.world ∧
        tr.created = [] ∧ tr.cudaAttempted = false) := by
  intro env argv
  constructor
  · intro hmm st tr h
    obtain ⟨pst, us, ul, tr1, w, tr2, cu, tr3, hparse, hcons, hchk, hsus, hsws, hdt,
            hcuda, hst, htr⟩ := construct_ok_elim env argv st tr h
    rw [(dtypeMismatch_none_iff env).1 hdt] at hmm
    cases hmm
  · intro e tr h hmem
    have hall : e.method = .all := dtypeErrs_method e hmem
    rcases construct_err_elim env argv e tr h with
      ⟨hp, htr, hm⟩ | ⟨pst, hp, htr, hm⟩ | ⟨pst, hp, hsus⟩ |
      ⟨pst, us, ul, tr1, hp, hsus, hsws⟩ |
      ⟨pst, us, ul, tr1, w, hp, hsus, hsws, hdt⟩ |
      ⟨pst, us, ul, tr1, w, tr2, hp, hsus, hsws, hdt, hcuda⟩
    · rw [hall] at hm
      cases hm
    · rw [hall] at hm
      cases hm
    · have := SUS_err env pst Trace.init tr e hsus
      rw [hall] at this
      cases this
    · have := SWS_err env pst us ul (effectiveSizes env pst) tr1 tr e hsws
      rw [hall] at this
      cases this
    · have h1 := SUS_core env pst Trace.init
      rw [hsus] at h1
      simp only [Res.trace] at h1
      have h2 := SWS_core env pst us ul (effectiveSizes env pst) tr1
      rw [hsws] at h2
      simp only [Res.trace] at h2
      refine ⟨hall, by rw [hall]; rfl, ?_, ?_⟩
      · rw [h2.2.1, h1.2.1]
        rfl
      · rw [h2.1, h1.1]
        rfl
    · obtain ⟨he, hflag, hx⟩ := cudaSetup_err env pst tr2 tr e hcuda
      rw [he] at hmem
      exact absurd hmem (by decide)

/-- Witness for the amended claim C9: the bad-tagint platform never
completes, and its reported error is in the datatype list with
world-collective scope and an empty construction record. -/
theorem C9_dtype_checks_amended_witness :
    (∀ st tr, construct envBadTagint ["lmp"] ≠ .ok st tr) ∧
    (∃ e tr, construct envBadTagint ["lmp"] = .fatal e tr ∧
      e.method = .all ∧ ErrMethod.scope e.method = Scope.world ∧
      tr.created = [] ∧ tr.cudaAttempted = false) := by
  constructor
  · exact (C9_dtype_checks_amended envBadTagint ["lmp"]).1 (by decide)
  · cases hc : construct envBadTagint ["lmp"] with
    | ok st tr =>
      have hko : (construct envBadTagint ["lmp"]).isOk = false := by decide
      rw [hc] at hko
      cases hko
    | fatal e tr =>
      have hmem : e ∈ dtypeErrs := by
        have h1 : (construct envBadTagint ["lmp"]).errOf =
            some ⟨.all, "Tagint setting in lmptype.h is invalid"⟩ := by decide
        rw [hc] at h1
        simp only [Res.errOf, Option.some.injEq] at h1
        rw [h1]
        decide
      exact ⟨e, tr, rfl, (C9_dtype_checks_amended envBadTagint ["lmp"]).2 e tr hc hmem⟩

/-- Claim C6: under forced-on (-cuda on) startup never completes when the
accelerated capability is absent; under auto (no -cuda switch) startup
never fails with the missing-capability fatal and, when it completes, the
accelerated context is active exactly when the capability exists (silent
fallback); under forced-off (-cuda off) the accelerated context is never
instantiated and never active. -/
theorem C6_cuda_variants :
    ∀ (env : Env) (argv : List String) (pst : ParseState),
      parseArgs (argv.drop 1) = .ok pst →
      ((pst.cudaflag = some true → env.cudaExists = false →
          ∀ st tr, construct env argv ≠ .ok st tr) ∧
       (pst.cudaflag = none →
          (∀ e tr, construct env argv = .fatal e tr → e ≠ cudaErr) ∧
          (∀ st tr, construct env argv = .ok st tr → st.cuda = env.cudaExists)) ∧
       (pst.cudaflag = some false →
          (construct env argv).trace.cudaAttempted = false ∧
          (∀ st tr, construct env argv = .ok st tr → st.cuda = false))) := by
  intro env argv pst hparse
  refine ⟨?_, ?_, ?_⟩
  · intro hflag hx st tr h
    obtain ⟨pst2, us, ul, tr1, w, tr2, cu, tr3, hp, hcons, hchk, hsus, hsws, hdt,
            hcuda, hst, htr⟩ := construct_ok_elim env argv st tr h
    rw [hparse] at hp
    injection hp with hp2
    subst hp2
    rw [cudaSetup_on_missing env pst tr2 hflag hx] at hcuda
    cases hcuda
  · intro hflag
    constructor
    · intro e tr h he
      rcases construct_err_elim env argv e tr h with
        ⟨hp, htr, hm⟩ | ⟨pst2, hp, htr, hm⟩ | ⟨pst2, hp, hsus⟩ |
        ⟨pst2, us, ul, tr1, hp, hsus, hsws⟩ |
        ⟨pst2, us, ul, tr1, w, hp, hsus, hsws, hdt⟩ |
        ⟨pst2, us, ul, tr1, w, tr2, hp, hsus, hsws, hdt, hcuda⟩
      · rw [he] at hm
        cases hm
      · rw [he] at hm
        cases hm
      · have := SUS_err env pst2 Trace.init tr e hsus
        rw [he] at this
        cases this
      · have := SWS_err env pst2 us ul (effectiveSizes env pst2) tr1 tr e hsws
        rw [he] at this
        cases this
      · obtain ⟨hmem, _⟩ := dtypeMismatch_mem env e hdt
        rw [he] at hmem
        exact absurd hmem (by decide)
      · rw [hparse] at hp
        injection hp with hp2
        subst hp2
        rw [cudaSetup_auto env pst tr2 hflag] at hcuda
        cases hcuda
    · intro st tr h
      obtain ⟨pst2, us, ul, tr1, w, tr2, cu, tr3, hp, hcons, hchk, hsus, hsws, hdt,
              hcuda, hst, htr⟩ := construct_ok_elim env argv st tr h
      rw [hparse] at hp
      injection hp with hp2
      subst hp2
      rw [cudaSetup_auto env pst tr2 hflag] at hcuda
      obtain ⟨h1, h2⟩ := Res.ok.inj hcuda
      subst hst
      rw [h1]
  · intro hflag
    constructor
    · cases hres : construct env argv with
      | ok st tr =>
        obtain ⟨pst2, us, ul, tr1, w, tr2, cu, tr3, hp, hcons, hchk, hsus, hsws, hdt,
                hcuda, hst, htr⟩ := construct_ok_elim env argv st tr hres
        rw [hparse] at hp
        injection hp with hp2
        subst hp2
        rw [cudaSetup_off env pst tr2 hflag] at hcuda
        obtain ⟨h1, h2⟩ := Res.ok.inj hcuda
        subst htr
        simp only [Res.trace, finishTrace_cudaAttempted]
        rw [← h2]
        have hc1 := SUS_core env pst Trace.init
        rw [hsus] at hc1
        simp only [Res.trace] at hc1
        have hc2 := SWS_core env pst us ul (effectiveSizes env pst) tr1
        rw [hsws] at hc2
        simp only [Res.trace] at hc2
        rw [hc2.1, hc1.1]
        rfl
      | fatal e tr =>
        rcases construct_err_elim env argv e tr hres with
          ⟨hp, htr, hm⟩ | ⟨pst2, hp, htr, hm⟩ | ⟨pst2, hp, hsus⟩ |
          ⟨pst2, us, ul, tr1, hp, hsus, hsws⟩ |
          ⟨pst2, us, ul, tr1, w, hp, hsus, hsws, hdt⟩ |
          ⟨pst2, us, ul, tr1, w, tr2, hp, hsus, hsws, hdt, hcuda⟩
        · subst htr
          rfl
        · subst htr
          rfl
        · have hc1 := SUS_core env pst2 Trace.init
          rw [hsus] at hc1
          simp only [Res.trace] at hc1 ⊢
          rw [hc1.1]
          rfl
        · have hc1 := SUS_core env pst2 Trace.init
          rw [hsus] at hc1
          simp only [Res.trace] at hc1
          have hc2 := SWS_core env pst2 us ul (effectiveSizes env pst2) tr1
          rw [hsws] at hc2
          simp only [Res.trace] at hc2 ⊢
          rw [hc2.1, hc1.1]
          rfl
        · have hc1 := SUS_core env pst2 Trace.init
          rw [hsus] at hc1
          simp only [Res.trace] at hc1
          have hc2 := SWS_core env pst2 us ul (effectiveSizes env pst2) tr1
          rw [hsws] at hc2
          simp only [Res.trace] at hc2 ⊢
          rw [hc2.1, hc1.1]
          rfl
        · rw [hparse] at hp
          injection hp with hp2
          subst hp2
          obtain ⟨he, hfl, hx⟩ := cudaSetup_err env pst tr2 tr e hcuda
          rw [hflag] at hfl
          cases hfl
    · intro st tr h
      obtain ⟨pst2, us, ul, tr1, w, tr2, cu, tr3, hp, hcons, hchk, hsus, hsws, hdt,
              hcuda, hst, htr⟩ := construct_ok_elim env argv st tr h
      rw [hparse] at hp
      injection hp with hp2
      subst hp2
      obtain ⟨h1, h2⟩ := cudaSetup_off_ok env pst tr2 tr3 cu hflag hcuda
      subst hst
      rw [h1]

/-- Witness for claim C6: forced-on without the capability never
completes; an auto run that fails (unopenable -screen file) does not fail
with the missing-capability message, and a completing auto run on a
capable platform activates the context; a forced-off run on a capable
platform never instantiates the context. -/
theorem C6_cuda_variants_witness :
    (∀ st tr, construct basicEnv ["lmp", "-c", "on"] ≠ .ok st tr) ∧
    (∀ e tr, construct badScreenEnv ["lmp", "-sc", "f"] = .fatal e tr → e ≠ cudaErr) ∧
    (∀ st tr, construct cudaEnv ["lmp"] = .ok st tr → st.cuda = cudaEnv.cudaExists) ∧
    (construct cudaEnv ["lmp", "-c", "off"]).trace.cudaAttempted = false := by
  refine ⟨?_, ?_, ?_, ?_⟩
  · exact (C6_cuda_variants basicEnv ["lmp", "-c", "on"]
      ⟨none, none, none, none, none, some true, true, false, none, false, false, [], []⟩
      rfl).1 rfl rfl
  · exact ((C6_cuda_variants badScreenEnv ["lmp", "-sc", "f"]
      ⟨none, some "f", none, none, none, none, true, false, none, false, false, [], []⟩
      rfl).2.1 rfl).1
  · exact ((C6_cuda_variants cudaEnv ["lmp"] ParseState.init rfl).2.1 rfl).2
  · exact ((C6_cuda_variants cudaEnv ["lmp", "-c", "off"]
      ⟨none, none, none, none, none, some false, true, false, none, false, false, [], []⟩
      rfl).2.2 rfl).1

/-- Claim C5, amended: failure to open the default pool log log.lammps
(no -log switch, unpartitioned resolution on pool rank 0) is only the
non-fatal error->universe_warn and resolution proceeds with a null log;
failure to open an explicitly requested universe log, universe screen or
input file is fatal at the requesting process (error->universe_one or
error->one); but in a partitioned run failure to open the default
per-world log log.lammps.N is also fatal (error->one), not a warning. -/
theorem C5_stream_failure_amended :
    ∀ (env : Env) (pst : ParseState) (tr : Trace),
      (env.me = 0 → pst.screenflag = none → pst.logflag = none → pst.helpflag = false →
        env.openW "log.lammps" = false →
        setUniverseStreams env pst tr =
          .ok (.stdoutS, .null)
            { tr with openAttempts := tr.openAttempts ++ [⟨.ulogDefault, "log.lammps"⟩],
                      warnings := tr.warnings ++ ["Cannot open log.lammps for writing"] }) ∧
      (∀ f, env.me = 0 → pst.screenflag = none → pst.logflag = some f → ¬ f = "none" →
        env.openW f = false →
        setUniverseStreams env pst tr =
          .fatal ⟨.universe_one, "Cannot open universe log file"⟩
            { tr with openAttempts := tr.openAttempts ++ [⟨.ulogFile, f⟩] }) ∧
      (∀ f, env.me = 0 → pst.screenflag = some f → ¬ f = "none" → env.openW f = false →
        setUniverseStreams env pst tr =
          .fatal ⟨.universe_one, "Cannot open universe screen file"⟩
            { tr with openAttempts := tr.openAttempts ++ [⟨.uscreenFile, f⟩] }) ∧
      (∀ f us ul sizes, pst.existflag = false → env.me = 0 → pst.inflag = some f →
        env.openR f = false →
        setWorldStreams env pst us ul sizes tr =
          .fatal ⟨.one, "Cannot open input script " ++ f⟩
            { tr with openAttempts := tr.openAttempts ++ [⟨.inputFile, f⟩] }) ∧
      (∀ us ul sizes, pst.existflag = true → pst.partscreenflag = none →
        pst.screenflag = none → pst.partlogflag = none → pst.logflag = none →
        (worldIndex sizes env.me).2 = 0 →
        env.openW ("screen." ++ toString (worldIndex sizes env.me).1) = true →
        env.openW ("log.lammps." ++ toString (worldIndex sizes env.me).1) = false →
        setWorldStreams env pst us ul sizes tr =
          .fatal ⟨.one, "Cannot open logfile"⟩
            { tr with
                openAttempts := tr.openAttempts ++
                  [⟨.wscreenFile, "screen." ++ toString (worldIndex sizes env.me).1⟩,
                   ⟨.wlogFile, "log.lammps." ++ toString (worldIndex sizes env.me).1⟩],
                openedFiles := tr.openedFiles ++
                  [⟨.wscreenFile, "screen." ++ toString (worldIndex sizes env.me).1⟩] }) := by
  intro env pst tr
  refine ⟨?_, ?_, ?_, ?_, ?_⟩
  · intro hme hscr hlog hhelp hw
    unfold setUniverseStreams
    rw [if_pos hme]
    simp [uscreenRes, hscr, ulogRes, hlog, hhelp, openOrWarn_eq, hw]
  · intro f hme hscr hlog hnone hw
    unfold setUniverseStreams
    rw [if_pos hme]
    simp [uscreenRes, hscr, ulogRes, hlog, hnone, openOrFatal_eq, hw]
  · intro f hme hscr hnone hw
    unfold setUniverseStreams
    rw [if_pos hme]
    simp [uscreenRes, hscr, hnone, openOrFatal_eq, hw]
  · intro f us ul sizes hex hme hin hr
    unfold setWorldStreams
    rw [if_pos hex]
    simp [uinRes, hin, hme, openROrFatal_eq, hr]
  · intro us ul sizes hex hps hscr hpl hlog hwme hw1 hw2
    unfold setWorldStreams
    rw [if_neg (by rw [hex]; exact fun hc => nomatch hc)]
    simp only [if_pos hwme]
    simp [wstreamRes, hps, hscr, hpl, hlog, openOrFatal_eq, hw1, hw2]

/-- Witness for claim C5: on concrete environments, a failing default
pool log is a warning with resolution completing, a failing explicit
-log or -screen file is a universe_one fatal, a failing explicit input
file is a one fatal, and a failing default per-world log in a
partitioned run is a one fatal. -/
theorem C5_stream_failure_amended_witness :
    setUniverseStreams badScreenEnv ParseState.init Trace.init =
      .ok (.stdoutS, .null)
        { Trace.init with
            openAttempts := Trace.init.openAttempts ++ [⟨.ulogDefault, "log.lammps"⟩],
            warnings := Trace.init.warnings ++ ["Cannot open log.lammps for writing"] } ∧
    setUniverseStreams badScreenEnv
        ⟨none, none, some "u.log", none, none, none, true, false, none, false, false, [], []⟩
        Trace.init =
      .fatal ⟨.universe_one, "Cannot open universe log file"⟩
        { Trace.init with openAttempts := Trace.init.openAttempts ++ [⟨.ulogFile, "u.log"⟩] } ∧
    setUniverseStreams badScreenEnv
        ⟨none, some "u.scr", none, none, none, none, true, false, none, false, false, [], []⟩
        Trace.init =
      .fatal ⟨.universe_one, "Cannot open universe screen file"⟩
        { Trace.init with openAttempts := Trace.init.openAttempts ++ [⟨.uscreenFile, "u.scr"⟩] } ∧
    setWorldStreams envNoInput
        ⟨some "in.lmp", none, none, none, none, none, true, false, none, false, false, [], []⟩
        .stdoutS .null [1] Trace.init =
      .fatal ⟨.one, "Cannot open input script " ++ "in.lmp"⟩
        { Trace.init with openAttempts := Trace.init.openAttempts ++ [⟨.inputFile, "in.lmp"⟩] } ∧
    setWorldStreams envPartLog
        ⟨some "in.lmp", none, none, none, none, none, true, false, none, false, true, ["1", "1"], []⟩
        .stdoutS .null [1, 1] Trace.init =
      .fatal ⟨.one, "Cannot open logfile"⟩
        { Trace.init with
            openAttempts := Trace.init.openAttempts ++
              [⟨.wscreenFile, "screen." ++ toString (worldIndex [1, 1] envPartLog.me).1⟩,
               ⟨.wlogFile, "log.lammps." ++ toString (worldIndex [1, 1] envPartLog.me).1⟩],
            openedFiles := Trace.init.openedFiles ++
              [⟨.wscreenFile, "screen." ++ toString (worldIndex [1, 1] envPartLog.me).1⟩] } := by
  refine ⟨?_, ?_, ?_, ?_, ?_⟩
  · exact (C5_stream_failure_amended badScreenEnv ParseState.init Trace.init).1
      rfl rfl rfl rfl rfl
  · exact (C5_stream_failure_amended badScreenEnv
      ⟨none, none, some "u.log", none, none, none, true, false, none, false, false, [], []⟩
      Trace.init).2.1 "u.log" rfl rfl rfl (by decide) rfl
  · exact (C5_stream_failure_amended badScreenEnv
      ⟨none, some "u.scr", none, none, none, none, true, false, none, false, false, [], []⟩
      Trace.init).2.2.1 "u.scr" rfl rfl (by decide) rfl
  · exact (C5_stream_failure_amended envNoInput
      ⟨some "in.lmp", none, none, none, none, none, true, false, none, false, false, [], []⟩
      Trace.init).2.2.2.1 "in.lmp" .stdoutS .null [1] rfl rfl rfl rfl
  · exact (C5_stream_failure_amended envPartLog
      ⟨some "in.lmp", none, none, none, none, none, true, false, none, false, true, ["1", "1"], []⟩
      Trace.init).2.2.2.2 .stdoutS .null [1, 1] rfl rfl rfl rfl rfl rfl (by decide) (by decide)

/-- Claim C2, amended: only pool rank 0 opens pool-scope streams and only a
world-local rank 0 opens world-scope streams, but the null-destination half
of the claim holds only partly: a pool process of nonzero rank ends with a
null pool log while its pool screen is stdout (not null) when no -screen
flag was given; a process that is not the local rank 0 of its world in a
partitioned run ends with null world streams, while in an unpartitioned run
every world stream aliases the corresponding pool stream. -/
theorem C2_streams_amended :
    ∀ (env : Env) (argv : List String) (st : LmpState) (tr : Trace) (pst : ParseState),
      parseArgs (argv.drop 1) = .ok pst →
      construct env argv = .ok st tr →
      (¬ env.me = 0 →
        sitesOK (fun s => ! s.isPool) tr.openAttempts = true ∧
        sitesOK (fun s => ! s.isPool) tr.openedFiles = true ∧
        st.ulogfile = .null ∧
        st.uscreen = (if pst.screenflag = none then OutStream.stdoutS else OutStream.null)) ∧
      (¬ st.worldMe = 0 →
        sitesOK (fun s => ! s.isWorld) tr.openAttempts = true ∧
        sitesOK (fun s => ! s.isWorld) tr.openedFiles = true ∧
        (pst.existflag = true → st.screen = .null ∧ st.logfile = .null ∧ st.infile = .null)) ∧
      (pst.existflag = false → st.screen = st.uscreen ∧ st.logfile = st.ulogfile) := by
  intro env argv st tr pst hp h
  obtain ⟨pst0, us, ul, tr1, w, tr2, cu, tr3, hparse, hcons, hchk, hsus, hsws, hdt,
          hcuda, hst, htr⟩ := construct_ok_elim env argv st tr h
  rw [hp] at hparse
  injection hparse with hpe
  subst hpe
  obtain ⟨hca, hco, hcw, hcn, hcc⟩ := cudaSetup_ok_trace env pst tr2 tr3 cu hcuda
  subst htr
  subst hst
  refine ⟨?_, ?_, ?_⟩
  · intro hme
    have hsme := SUS_me_pos env pst Trace.init hme
    rw [hsme] at hsus
    injection hsus with h1 h2
    injection h1 with hus hul
    subst h2
    have hb := SWS_sites env pst us ul (effectiveSizes env pst) Trace.init
      (fun s => ! s.isPool) rfl rfl rfl rfl rfl
    rw [hsws] at hb
    simp only [Res.trace] at hb
    refine ⟨?_, ?_, hul.symm, hus.symm⟩
    · simp only [finishTrace_openAttempts]
      rw [hca]
      exact hb.1
    · simp only [finishTrace_openedFiles]
      rw [hco]
      exact hb.2
  · intro hwme
    by_cases hex : pst.existflag = false
    · have hw := SWS_unpart_ok env pst us ul (effectiveSizes env pst) tr1 tr2 w hex hsws
      have hme : ¬ env.me = 0 := by
        intro h0
        apply hwme
        show w.worldMe = 0
        rw [hw.2.2.2.1, h0]
      have hsme := SUS_me_pos env pst Trace.init hme
      rw [hsme] at hsus
      injection hsus with h1 h2
      subst h2
      have hwp := SWS_unpart_me_pos env pst us ul (effectiveSizes env pst) Trace.init hex hme
      rw [hwp] at hsws
      injection hsws with h3 h4
      subst h4
      refine ⟨?_, ?_, ?_⟩
      · simp only [finishTrace_openAttempts, hca]
        rfl
      · simp only [finishTrace_openedFiles, hco]
        rfl
      · intro het
        simp [hex] at het
    · have hpo := SWS_part_ok env pst us ul (effectiveSizes env pst) tr1 tr2 w hex hsws
      have hwidx : ¬ (worldIndex (effectiveSizes env pst) env.me).2 = 0 := by
        intro h0
        apply hwme
        show w.worldMe = 0
        rw [hpo.2.1, h0]
      obtain ⟨tr2x, heq, ha2, ho2, hw2, hn2, hcu2, hcr2⟩ :=
        SWS_part_wme_pos env pst us ul (effectiveSizes env pst) tr1 hex hwidx
      rw [heq] at hsws
      injection hsws with h3 h4
      subst h4
      subst h3
      have hu := SUS_sites env pst Trace.init (fun s => ! s.isWorld) rfl rfl rfl rfl rfl
      rw [hsus] at hu
      simp only [Res.trace] at hu
      refine ⟨?_, ?_, ?_⟩
      · simp only [finishTrace_openAttempts]
        rw [hca, ha2]
        exact hu.1
      · simp only [finishTrace_openedFiles]
        rw [hco, ho2]
        exact hu.2
      · intro het
        exact ⟨rfl, rfl, rfl⟩
  · intro hex
    have hw := SWS_unpart_ok env pst us ul (effectiveSizes env pst) tr1 tr2 w hex hsws
    exact ⟨hw.1, hw.2.1⟩

/-- Witness for claim C2 amended: the completing run of pool rank 1 of a
two-process unpartitioned pool, where the pool screen resolves to stdout,
the pool log to null, the world streams alias the pool streams, and no
pool-scope fopen happens on this rank. -/
theorem C2_streams_amended_witness :
    ∃ st tr, construct envRank1 ["lmp"] = .ok st tr ∧
      st.uscreen = .stdoutS ∧ st.ulogfile = .null ∧
      st.screen = st.uscreen ∧ st.logfile = st.ulogfile ∧
      sitesOK (fun s => ! s.isPool) tr.openAttempts = true := by
  cases hc : construct envRank1 ["lmp"] with
  | fatal e tr =>
    have hok : (construct envRank1 ["lmp"]).isOk = true := by decide
    rw [hc] at hok
    simp [Res.isOk] at hok
  | ok st tr =>
    have h := C2_streams_amended envRank1 ["lmp"] st tr ParseState.init rfl hc
    exact ⟨st, tr, rfl, (h.1 (by decide)).2.2.2, (h.1 (by decide)).2.2.1,
      (h.2.2 rfl).1, (h.2.2 rfl).2, (h.1 (by decide)).1⟩

/-- fopen-attempt monotonicity of the fatal write-open helper: every event
already recorded stays recorded. -/
theorem openOrFatal_mono (env : Env) (site : OpenSite) (name : String) (e : ErrCall)
    (tr : Trace) (ev : OpenEvent) (h : ev ∈ tr.openAttempts) :
    ev ∈ (openOrFatal env site name e tr).trace.openAttempts := by
  rw [openOrFatal_eq]
  split <;> simp [Res.trace, List.mem_append, h]

/-- fopen-attempt monotonicity of the warning write-open helper. -/
theorem openOrWarn_mono (env : Env) (site : OpenSite) (name : String) (w : String)
    (tr : Trace) (ev : OpenEvent) (h : ev ∈ tr.openAttempts) :
    ev ∈ (openOrWarn env site name w tr).trace.openAttempts := by
  rw [openOrWarn_eq]
  split <;> simp [Res.trace, List.mem_append, h]

/-- fopen-attempt monotonicity of the fatal read-open helper. -/
theorem openROrFatal_mono (env : Env) (site : OpenSite) (name : String) (e : ErrCall)
    (tr : Trace) (ev : OpenEvent) (h : ev ∈ tr.openAttempts) :
    ev ∈ (openROrFatal env site name e tr).trace.openAttempts := by
  rw [openROrFatal_eq]
  split <;> simp [Res.trace, List.mem_append, h]

/-- fopen-attempt monotonicity of the unpartitioned input resolver. -/
theorem uinRes_mono (env : Env) (inflag : Option String) (tr : Trace) (ev : OpenEvent)
    (h : ev ∈ tr.openAttempts) :
    ev ∈ (uinRes env inflag tr).trace.openAttempts := by
  unfold uinRes
  split
  · exact h
  · exact openROrFatal_mono env _ _ _ tr ev h

/-- fopen-attempt monotonicity of the partitioned input resolver. -/
theorem winRes_mono (env : Env) (inflag : Option String) (tr : Trace) (ev : OpenEvent)
    (h : ev ∈ tr.openAttempts) :
    ev ∈ (winRes env inflag tr).trace.openAttempts := by
  unfold winRes
  split
  · exact openROrFatal_mono env _ _ _ tr ev h
  · exact h

/-- fopen-attempt monotonicity of the per-world stream resolver. -/
theorem wstreamRes_mono (env : Env) (site : OpenSite) (pflag fl : Option String)
    (defBase : String) (iw : Nat) (emsg : String) (tr : Trace) (ev : OpenEvent)
    (h : ev ∈ tr.openAttempts) :
    ev ∈ (wstreamRes env site pflag fl defBase iw emsg tr).trace.openAttempts := by
  unfold wstreamRes
  repeat' split
  all_goals first
    | exact h
    | exact openOrFatal_mono env _ _ _ tr ev h

/-- fopen-attempt monotonicity of the whole world-stream phase. -/
theorem SWS_attempts_mono (env : Env) (pst : ParseState) (us ul : OutStream)
    (sizes : List Nat) (tr : Trace) (ev : OpenEvent)
    (h : ev ∈ tr.openAttempts) :
    ev ∈ (setWorldStreams env pst us ul sizes tr).trace.openAttempts := by
  unfold setWorldStreams
  split
  · by_cases hme : env.me = 0
    · simp only [if_pos hme]
      split
      · rename_i e t heq
        have h1 := uinRes_mono env pst.inflag tr ev h
        rw [heq] at h1
        exact h1
      · rename_i infl t heq
        have h1 := uinRes_mono env pst.inflag tr ev h
        rw [heq] at h1
        simp_all [Res.trace]
    · simp only [if_neg hme]
      simp_all [Res.trace]
  · by_cases hw : (worldIndex sizes env.me).2 = 0
    · simp only [if_pos hw]
      split
      · rename_i e t heq
        have h1 := wstreamRes_mono env .wscreenFile pst.partscreenflag pst.screenflag
          "screen" (worldIndex sizes env.me).1 "Cannot open screen file" tr ev h
        rw [heq] at h1
        exact h1
      · rename_i screen t1 heq
        have h1 := wstreamRes_mono env .wscreenFile pst.partscreenflag pst.screenflag
          "screen" (worldIndex sizes env.me).1 "Cannot open screen file" tr ev h
        rw [heq] at h1
        simp only [Res.trace] at h1
        split
        · rename_i e t heq2
          have h2 := wstreamRes_mono env .wlogFile pst.partlogflag pst.logflag
            "log.lammps" (worldIndex sizes env.me).1 "Cannot open logfile" t1 ev h1
          rw [heq2] at h2
          exact h2
        · rename_i logfile t2 heq2
          have h2 := wstreamRes_mono env .wlogFile pst.partlogflag pst.logflag
            "log.lammps" (worldIndex sizes env.me).1 "Cannot open logfile" t1 ev h1
          rw [heq2] at h2
          simp only [Res.trace] at h2
          split
          · rename_i e t heq3
            have h3 := winRes_mono env pst.inflag t2 ev h2
            rw [heq3] at h3
            exact h3
          · rename_i infl t3 heq3
            have h3 := winRes_mono env pst.inflag t2 ev h2
            rw [heq3] at h3
            simp only [Res.trace] at h3 ⊢
            repeat' split
            all_goals simp_all
    · simp only [if_neg hw]
      simp only [Res.trace]
      repeat' split
      all_goals simp_all

/-- The accelerator selector records no fopen events. -/
theorem cudaSetup_sites (env : Env) (pst : ParseState) (tr : Trace) :
    (cudaSetup env pst tr).trace.openAttempts = tr.openAttempts ∧
    (cudaSetup env pst tr).trace.openedFiles = tr.openedFiles := by
  unfold cudaSetup
  repeat' split
  all_goals simp [Res.trace]

/-- Under -help with no -log switch the universe-stream phase skips the
default-log branch entirely: it can add only uscreenFile fopen events. -/
theorem SUS_help_sites (env : Env) (pst : ParseState) (tr : Trace) (p : OpenSite → Bool)
    (hp1 : p .uscreenFile = true)
    (hlog : pst.logflag = none) (hhelp : pst.helpflag = true)
    (ha : sitesOK p tr.openAttempts = true) (ho : sitesOK p tr.openedFiles = true) :
    sitesOK p (setUniverseStreams env pst tr).trace.openAttempts = true ∧
    sitesOK p (setUniverseStreams env pst tr).trace.openedFiles = true := by
  unfold setUniverseStreams
  split
  · split
    · rename_i e tr1 heq
      have h1 := uscreenRes_sites env pst tr p hp1 ha ho
      rw [heq] at h1
      exact h1
    · rename_i us tr1 heq
      have h1 := uscreenRes_sites env pst tr p hp1 ha ho
      rw [heq] at h1
      rw [ulogRes_help env pst tr1 hlog hhelp]
      exact h1
  · exact ⟨ha, ho⟩

/-- On pool rank 0 with no -log and no -help, a completing universe-stream
phase has attempted the default log.lammps open. -/
theorem SUS_default_attempt (env : Env) (pst : ParseState) (tr tr2 : Trace)
    (us ul : OutStream)
    (hme : env.me = 0) (hlog : pst.logflag = none) (hhelp : pst.helpflag = false)
    (h : setUniverseStreams env pst tr = .ok (us, ul) tr2) :
    (⟨OpenSite.ulogDefault, "log.lammps"⟩ : OpenEvent) ∈ tr2.openAttempts := by
  unfold setUniverseStreams at h
  rw [if_pos hme] at h
  split at h
  · cases h
  · rename_i us1 tr1 heq
    rw [ulogRes_default env pst tr1 hlog hhelp] at h
    split at h
    · cases h
    · rename_i ul1 trx heq2
      injection h with h1 h2
      subst h2
      split at heq2
      · injection heq2 with hq1 hq2
        subst hq2
        simp
      · injection heq2 with hq1 hq2
        subst hq2
        simp

/-- Under -help with no -log switch, a full constructor run, completing or
fatal, records fopen events only at call sites satisfying p, for any p that
holds away from the default-log site. -/
theorem construct_help_sites (env : Env) (argv : List String) (pst : ParseState)
    (p : OpenSite → Bool)
    (hp : parseArgs (argv.drop 1) = .ok pst)
    (hlog : pst.logflag = none) (hhelp : pst.helpflag = true)
    (hps : p .uscreenFile = true) (hpw : p .wscreenFile = true)
    (hpl : p .wlogFile = true) (hpi : p .inputFile = true) :
    sitesOK p (construct env argv).trace.openAttempts = true ∧
    sitesOK p (construct env argv).trace.openedFiles = true := by
  cases hcon : construct env argv with
  | fatal e tr =>
    simp only [Res.trace]
    rcases construct_err_elim env argv e tr hcon with
      ⟨hpe, _, _⟩ | ⟨pst1, hp1e, htr, _⟩ | ⟨pst1, hp1e, hsusf⟩ |
      ⟨pst1, us, ul, tr1, hp1e, hsus, hswsf⟩ |
      ⟨pst1, us, ul, tr1, w, hp1e, hsus, hsws, hdt⟩ |
      ⟨pst1, us, ul, tr1, w, tr2, hp1e, hsus, hsws, hdt, hcf⟩
    · rw [hp] at hpe
      cases hpe
    · subst htr
      exact ⟨rfl, rfl⟩
    · rw [hp] at hp1e
      injection hp1e with hpe
      subst hpe
      have h1 := SUS_help_sites env pst Trace.init p hps hlog hhelp rfl rfl
      rw [hsusf] at h1
      exact h1
    · rw [hp] at hp1e
      injection hp1e with hpe
      subst hpe
      have h1 := SUS_help_sites env pst Trace.init p hps hlog hhelp rfl rfl
      rw [hsus] at h1
      have h2 := SWS_sites env pst us ul (effectiveSizes env pst) tr1 p hpw hpl hpi h1.1 h1.2
      rw [hswsf] at h2
      exact h2
    · rw [hp] at hp1e
      injection hp1e with hpe
      subst hpe
      have h1 := SUS_help_sites env pst Trace.init p hps hlog hhelp rfl rfl
      rw [hsus] at h1
      have h2 := SWS_sites env pst us ul (effectiveSizes env pst) tr1 p hpw hpl hpi h1.1 h1.2
      rw [hsws] at h2
      exact h2
    · rw [hp] at hp1e
      injection hp1e with hpe
      subst hpe
      have h1 := SUS_help_sites env pst Trace.init p hps hlog hhelp rfl rfl
      rw [hsus] at h1
      have h2 := SWS_sites env pst us ul (effectiveSizes env pst) tr1 p hpw hpl hpi h1.1 h1.2
      rw [hsws] at h2
      have h3 := cudaSetup_sites env pst tr2
      rw [hcf] at h3
      simp only [Res.trace] at h3
      rw [h3.1, h3.2]
      exact h2
  | ok st tr =>
    simp only [Res.trace]
    obtain ⟨pst1, us, ul, tr1, w, tr2, cu, tr3, hp1e, hcons, hchk, hsus, hsws, hdt,
            hcuda, hst, htr⟩ := construct_ok_elim env argv st tr hcon
    rw [hp] at hp1e
    injection hp1e with hpe
    subst hpe
    have h1 := SUS_help_sites env pst Trace.init p hps hlog hhelp rfl rfl
    rw [hsus] at h1
    have h2 := SWS_sites env pst us ul (effectiveSizes env pst) tr1 p hpw hpl hpi h1.1 h1.2
    rw [hsws] at h2
    obtain ⟨hca, hco, hw2, hn2, hc2⟩ := cudaSetup_ok_trace env pst tr2 tr3 cu hcuda
    subst htr
    constructor
    · simp only [finishTrace_openAttempts]
      rw [hca]
      exact h2.1
    · simp only [finishTrace_openedFiles]
      rw [hco]
      exact h2.2

/-- Claim C10: when -help is present and no -log is given, no process of
any run, completing or fatal, ever attempts the default log.lammps open —
the default-log branch is skipped entirely; without -help, with no -log,
a completing run on pool rank 0 records the default-log fopen attempt;
and -help forces the citation flag off, so the citation collaborator is
never constructed. -/
theorem C10_help_default_log :
    ∀ (env : Env) (argv : List String) (pst : ParseState),
      parseArgs (argv.drop 1) = .ok pst →
      (pst.helpflag = true → pst.logflag = none →
        sitesOK (fun s => ! (s == OpenSite.ulogDefault))
          (construct env argv).trace.openAttempts = true) ∧
      (pst.helpflag = true → pst.citeflag = false) ∧
      (∀ st tr, env.me = 0 → pst.logflag = none → pst.helpflag = false →
        construct env argv = .ok st tr →
        (⟨OpenSite.ulogDefault, "log.lammps"⟩ : OpenEvent) ∈ tr.openAttempts) := by
  intro env argv pst hp
  refine ⟨?_, ?_, ?_⟩
  · intro hh hl
    exact (construct_help_sites env argv pst (fun s => ! (s == OpenSite.ulogDefault))
      hp hl hh rfl rfl rfl rfl).1
  · intro hh
    have hp2 : parseLoop (argv.drop 1).length (argv.drop 1) ParseState.init = .ok pst := hp
    exact parseLoop_cite (argv.drop 1).length (argv.drop 1) ParseState.init pst hp2
      (by decide) hh
  · intro st tr hme hl hh hok
    obtain ⟨pst1, us, ul, tr1, w, tr2, cu, tr3, hp1e, hcons, hchk, hsus, hsws, hdt,
            hcuda, hst, htr⟩ := construct_ok_elim env argv st tr hok
    rw [hp] at hp1e
    injection hp1e with hpe
    subst hpe
    have h1 := SUS_default_attempt env pst Trace.init tr1 us ul hme hl hh hsus
    have h2 := SWS_attempts_mono env pst us ul (effectiveSizes env pst) tr1 _ h1
    rw [hsws] at h2
    simp only [Res.trace] at h2
    obtain ⟨hca, hco, hw2, hn2, hc2⟩ := cudaSetup_ok_trace env pst tr2 tr3 cu hcuda
    subst htr
    simp only [finishTrace_openAttempts]
    rw [hca]
    exact h2

/-- Witness for claim C10: the one-process run under -h attempts no
default-log open, and the same run without -h records the default-log
attempt. -/
theorem C10_help_default_log_witness :
    sitesOK (fun s => ! (s == OpenSite.ulogDefault))
      (construct basicEnv ["lmp", "-h"]).trace.openAttempts = true ∧
    (⟨OpenSite.ulogDefault, "log.lammps"⟩ : OpenEvent) ∈
      (construct basicEnv ["lmp"]).trace.openAttempts := by
  constructor
  · exact (C10_help_default_log basicEnv ["lmp", "-h"]
      ⟨none, none, none, none, none, none, false, true, none, false, false, [], []⟩
      rfl).1 rfl rfl
  · cases hc : construct basicEnv ["lmp"] with
    | fatal e tr =>
      have hok : (construct basicEnv ["lmp"]).isOk = true := by decide
      rw [hc] at hok
      simp [Res.isOk] at hok
    | ok st tr =>
      exact (C10_help_default_log basicEnv ["lmp"] ParseState.init rfl).2.2 st tr
        rfl rfl rfl hc

end LAMMPS
